import Mathlib

/-!
# cocos2d-x physics joints (`cocos/physics/CCPhysicsJoint.cpp`)

A shallow embedding of the joint lifecycle of `CCPhysicsJoint.cpp`.

* Pointers are `Option Nat`: `none` is `nullptr`, `some i` is the address `i`.
  The heap is a family of partial maps from addresses to objects; an address
  that is not mapped is a dangling pointer.
* A member function takes the state and `this` and returns
  `Except Fault ...`: a failed `CCASSERT`, a null dereference, a dangling
  dereference and `front()` of an empty vector stop the program.
* `float` and `cpFloat` are the type parameters `F` and `CpF`; the numeric
  helpers of `CCPhysicsHelper.h`, the geometry of `PhysicsBody`/`Vec2` and the
  build mode of `CCASSERT` are the fields of `Env`.
* Calls to collaborators whose effect is outside this file (the world, the
  physics engine's free call, `PhysicsBody::removeJoint`) are recorded, in
  order, in `State.trace`.
-/

namespace cocos2d

/-! ## Data model -/

/-- The engine-side 2D vector `Vec2`. -/
structure Vec2 (F : Type) where
  x : F
  y : F
deriving DecidableEq

/-- The physics-engine 2D vector `cpVect`. -/
structure cpVect (CpF : Type) where
  x : CpF
  y : CpF
deriving DecidableEq

/-- Ways in which a call stops the program instead of returning. -/
inductive Fault where
  /-- a `CCASSERT` whose condition is false, in a build that checks assertions -/
  | assertFailed
  /-- a member access through `nullptr` -/
  | nullDeref
  /-- a member access through a pointer to an object that is not alive -/
  | dangling
  /-- `front()` of an empty `std::vector` -/
  | emptyFront
  /-- a typed accessor of the physics engine applied to another kind of constraint -/
  | wrongKind
deriving DecidableEq

/-- The parameters each constraint factory of the physics engine receives
(`cpPivotJointNew`, `cpGearJointNew`, `cpSlideJointNew`, `cpPinJointNew`,
`cpDampedSpringNew`, `cpGrooveJointNew`, `cpDampedRotarySpringNew`,
`cpRotaryLimitJointNew`, `cpRatchetJointNew`, `cpSimpleMotorNew`). -/
inductive ConstraintKind (CpF : Type) where
  | pivot (anchr : cpVect CpF)
  | gear (phase gearRatio : CpF)
  | slide (anchr1 anchr2 : cpVect CpF) (min max : CpF)
  | pin (anchr1 anchr2 : cpVect CpF)
  | dampedSpring (anchr1 anchr2 : cpVect CpF) (restLength stiffness damping : CpF)
  | groove (grooveA grooveB anchr2 : cpVect CpF)
  | dampedRotarySpring (restAngle stiffness damping : CpF)
  | rotaryLimit (min max : CpF)
  | ratchet (phase ratchet : CpF)
  | simpleMotor (rate : CpF)
deriving DecidableEq

/-- A `cpConstraint` object of the physics engine: the two `cpBody*` it
connects, the `maxForce` field that `setMaxForce` writes, and the parameters
of its kind. -/
structure cpConstraint (CpF : Type) where
  a : Nat
  b : Nat
  maxForce : CpF
  kind : ConstraintKind CpF
deriving DecidableEq

/-- The fields of `PhysicsJoint`, with the names of the source. -/
structure PhysicsJoint where
  _bodyA : Option Nat
  _bodyB : Option Nat
  _world : Option Nat
  _enable : Bool
  _collisionEnable : Bool
  _destoryMark : Bool
  _tag : Int
  _cpConstraints : List Nat
deriving DecidableEq

/-- Modelled from the spec: `PhysicsBody` (`CCPhysicsBody.h` is not under
`src/`). The spec gives a body a joint list (`body.joints.append(self)`),
world-space position and rotation queries and a handle to its physics-engine
body; the source reads `_joints`, `_node`, `getCPBody()`, `getRotation()` and
`local2World`. -/
structure PhysicsBody (F : Type) where
  _joints : List Nat
  _node : Option Nat
  _cpBody : Nat
  position : Vec2 F
  rotation : F
deriving DecidableEq

/-- Modelled from the spec: `Node` (`2d/CCNode.h` is not under `src/`); only
the position that `setPosition` writes is kept. -/
structure Node (F : Type) where
  position : Vec2 F
deriving DecidableEq

/-- A request held back by a world while a simulation step is in progress. -/
inductive WorldOp where
  | add (joint : Nat)
  | remove (joint : Nat)
deriving DecidableEq

/-- Modelled from the spec: `PhysicsWorld` (`CCPhysicsWorld.cpp` is not under
`src/`). The spec gives a world an active set of joints and says that a
mutation of the active set requested during a simulation step is deferred: a
queue of pending operations drained at the end of the step. -/
structure PhysicsWorld where
  active : List Nat
  pending : List WorldOp
  locked : Bool
deriving DecidableEq

/-- Calls to collaborators, recorded in the order they are issued. -/
inductive Event where
  | cpConstraintFree (constraint : Nat)
  | addJointOrDelay (world joint : Nat)
  | removeJointOrDelay (world joint : Nat)
  | removeJoint (world joint : Nat) (destroy : Bool)
  | bodyRemoveJoint (body joint : Nat)
deriving DecidableEq

/-- The parts of the build that `CCPhysicsJoint.cpp` uses and does not define. -/
structure Env (F CpF : Type) where
  /-- `COCOS2D_DEBUG > 0`: `CCASSERT` checks its condition; otherwise it expands to nothing -/
  assertsEnabled : Bool
  /-- `PhysicsHelper::float2cpfloat` -/
  float2cpfloat : F → CpF
  /-- `PhysicsHelper::cpfloat2float` -/
  cpfloat2float : CpF → F
  /-- `PhysicsHelper::point2cpv` -/
  point2cpv : Vec2 F → cpVect CpF
  /-- `PhysicsHelper::cpv2point` -/
  cpv2point : cpVect CpF → Vec2 F
  /-- the implicit conversion of a `float` argument to `cpFloat` -/
  implicitCast : F → CpF
  /-- `PhysicsBody::local2World` -/
  local2World : PhysicsBody F → Vec2 F → Vec2 F
  /-- `Vec2::getDistance`: `p.getDistance(q)` is `getDistance p q` -/
  getDistance : Vec2 F → Vec2 F → F
  /-- the `maxForce` of a constraint fresh from its factory -/
  maxForceDefault : CpF

/-- The program state: the heap of joints, bodies, nodes, worlds and engine
constraints, the outcomes of the allocations still to come, and the trace of
collaborator calls. In `newOutcomes` and `factoryOutcomes` the head decides the
next allocation: `false` makes it return `nullptr`; an exhausted list lets every
further allocation succeed. -/
structure State (F CpF : Type) where
  joints : Nat → Option PhysicsJoint
  nextJoint : Nat
  newOutcomes : List Bool
  bodies : Nat → Option (PhysicsBody F)
  nodes : Nat → Option (Node F)
  worlds : Nat → Option PhysicsWorld
  constraints : Nat → Option (cpConstraint CpF)
  nextHandle : Nat
  factoryOutcomes : List Bool
  trace : List Event

variable {F CpF : Type}

/-! ## Heap access -/

/-- Writes the joint object at address `j`. -/
def State.setJoint (s : State F CpF) (j : Nat) (v : PhysicsJoint) : State F CpF :=
  { s with joints := Function.update s.joints j (some v) }

/-- Writes the body object at address `b`. -/
def State.setBody (s : State F CpF) (b : Nat) (v : PhysicsBody F) : State F CpF :=
  { s with bodies := Function.update s.bodies b (some v) }

/-- Writes the node object at address `n`. -/
def State.setNode (s : State F CpF) (n : Nat) (v : Node F) : State F CpF :=
  { s with nodes := Function.update s.nodes n (some v) }

/-- Writes the world object at address `w`. -/
def State.setWorld (s : State F CpF) (w : Nat) (v : PhysicsWorld) : State F CpF :=
  { s with worlds := Function.update s.worlds w (some v) }

/-- Writes the constraint object at address `h`. -/
def State.setConstraint (s : State F CpF) (h : Nat) (v : cpConstraint CpF) : State F CpF :=
  { s with constraints := Function.update s.constraints h (some v) }

/-- Appends a call to the trace. -/
def State.emit (s : State F CpF) (e : Event) : State F CpF :=
  { s with trace := s.trace ++ [e] }

/-- Member access through a joint pointer that is known to be non-null. -/
def derefJoint (s : State F CpF) (j : Nat) : Except Fault PhysicsJoint :=
  match s.joints j with
  | some jt => .ok jt
  | none => .error .dangling

/-- Member access through a body pointer. -/
def derefBody (s : State F CpF) (p : Option Nat) : Except Fault (Nat × PhysicsBody F) :=
  match p with
  | none => .error .nullDeref
  | some b =>
    match s.bodies b with
    | some bd => .ok (b, bd)
    | none => .error .dangling

/-- Member access through a node pointer. -/
def derefNode (s : State F CpF) (p : Option Nat) : Except Fault (Nat × Node F) :=
  match p with
  | none => .error .nullDeref
  | some n =>
    match s.nodes n with
    | some nd => .ok (n, nd)
    | none => .error .dangling

/-- Member access through a world pointer. -/
def derefWorld (s : State F CpF) (p : Option Nat) : Except Fault (Nat × PhysicsWorld) :=
  match p with
  | none => .error .nullDeref
  | some w =>
    match s.worlds w with
    | some wd => .ok (w, wd)
    | none => .error .dangling

/-- Member access through a constraint pointer. -/
def derefConstraint (s : State F CpF) (h : Nat) : Except Fault (cpConstraint CpF) :=
  match s.constraints h with
  | some c => .ok c
  | none => .error .dangling

/-- The call `_cpConstraints.front()`. -/
def front (s : State F CpF) (this : Nat) : Except Fault Nat := do
  let jt ← derefJoint s this
  match jt._cpConstraints with
  | [] => .error .emptyFront
  | h :: _ => .ok h

/-- The macro `CCASSERT(cond, msg)`: in a build that checks assertions a false
condition stops the program; otherwise the macro does nothing. -/
def CCASSERT (env : Env F CpF) (cond : Bool) : Except Fault Unit :=
  if env.assertsEnabled && !cond then .error .assertFailed else .ok ()

/-! ## Collaborators -/

/-- Modelled from the spec: `Node::setPosition` (`2d/CCNode.cpp` is not under
`src/`); the spec says the fixed joint forces both bodies' node positions to
the anchor. -/
def Node.setPosition (s : State F CpF) (p : Option Nat) (pos : Vec2 F) :
    Except Fault (State F CpF) := do
  let (n, nd) ← derefNode s p
  return s.setNode n { nd with position := pos }

/-- Modelled from the spec: `PhysicsBody::removeJoint` (`CCPhysicsBody.cpp` is
not under `src/`); the spec says it detaches the joint from the body. The call
is recorded in the trace. -/
def PhysicsBody.removeJoint (s : State F CpF) (p : Option Nat) (joint : Nat) :
    Except Fault (State F CpF) := do
  let (b, bd) ← derefBody s p
  return (s.setBody b { bd with _joints := bd._joints.filter (fun j => j != joint) }).emit
    (.bodyRemoveJoint b joint)

/-- The call `body->getCPBody()`. -/
def getCPBody (s : State F CpF) (p : Option Nat) : Except Fault Nat := do
  let (_, bd) ← derefBody s p
  return bd._cpBody

/-- The call `body->getRotation()`. -/
def getRotation (s : State F CpF) (p : Option Nat) : Except Fault F := do
  let (_, bd) ← derefBody s p
  return bd.rotation

/-- The call `body->local2World(point)`. -/
def local2World (env : Env F CpF) (s : State F CpF) (p : Option Nat) (point : Vec2 F) :
    Except Fault (Vec2 F) := do
  let (_, bd) ← derefBody s p
  return env.local2World bd point

/-- Modelled from the spec: the effect of one request on the active set of a
world. -/
def WorldOp.apply (active : List Nat) : WorldOp → List Nat
  | .add j => if j ∈ active then active else active ++ [j]
  | .remove j => active.filter (fun k => k != j)

/-- Modelled from the spec: a world takes a request at once when no step is in
progress and queues it otherwise. -/
def PhysicsWorld.request (w : PhysicsWorld) (op : WorldOp) : PhysicsWorld :=
  if w.locked then { w with pending := w.pending ++ [op] }
  else { w with active := op.apply w.active }

/-- Modelled from the spec: the end of a simulation step drains the pending
requests in order. -/
def PhysicsWorld.drain (w : PhysicsWorld) : PhysicsWorld :=
  { active := w.pending.foldl WorldOp.apply w.active, pending := [], locked := false }

/-- Modelled from the spec: `PhysicsWorld::addJointOrDelay`
(`CCPhysicsWorld.cpp` is not under `src/`). The call is recorded in the trace. -/
def PhysicsWorld.addJointOrDelay (s : State F CpF) (p : Option Nat) (joint : Nat) :
    Except Fault (State F CpF) := do
  let (w, wd) ← derefWorld s p
  return (s.setWorld w (wd.request (.add joint))).emit (.addJointOrDelay w joint)

/-- Modelled from the spec: `PhysicsWorld::removeJointOrDelay`
(`CCPhysicsWorld.cpp` is not under `src/`). The call is recorded in the trace. -/
def PhysicsWorld.removeJointOrDelay (s : State F CpF) (p : Option Nat) (joint : Nat) :
    Except Fault (State F CpF) := do
  let (w, wd) ← derefWorld s p
  return (s.setWorld w (wd.request (.remove joint))).emit (.removeJointOrDelay w joint)

/-- The call `world->removeJoint(joint, destroy)`. `CCPhysicsWorld.cpp` is not
under `src/` and the spec gives only the signature, so the call is recorded in
the trace and nothing else of the state is changed here. -/
def PhysicsWorld.removeJoint (s : State F CpF) (p : Option Nat) (joint : Nat) (destroy : Bool) :
    Except Fault (State F CpF) := do
  let (w, _) ← derefWorld s p
  return s.emit (.removeJoint w joint destroy)

/-! ## The physics engine -/

/-- A constraint factory of the physics engine: it returns `nullptr` when the
next allocation outcome says so, and otherwise a fresh constraint holding the
two bodies and the parameters it was given. -/
def cpConstraintNew (env : Env F CpF) (s : State F CpF) (a b : Nat) (kind : ConstraintKind CpF) :
    Option Nat × State F CpF :=
  match s.factoryOutcomes with
  | false :: rest => (none, { s with factoryOutcomes := rest })
  | _ =>
    (some s.nextHandle,
      { s with
        constraints := Function.update s.constraints s.nextHandle
          (some { a := a, b := b, maxForce := env.maxForceDefault, kind := kind })
        nextHandle := s.nextHandle + 1
        factoryOutcomes := s.factoryOutcomes.tail })

/-- The engine call `cpConstraintFree`: the constraint object is gone and the
call is recorded. -/
def cpConstraintFree (s : State F CpF) (constraint : Nat) : State F CpF :=
  { s with
    constraints := Function.update s.constraints constraint none
    trace := s.trace ++ [.cpConstraintFree constraint] }

/-! ## `PhysicsJoint` -/

/-- The constructor `PhysicsJoint::PhysicsJoint()`. -/
def PhysicsJoint.ctor : PhysicsJoint :=
  { _bodyA := none
    _bodyB := none
    _world := none
    _enable := false
    _collisionEnable := true
    _destoryMark := false
    _tag := 0
    _cpConstraints := [] }

/-- The expression `new (std::nothrow) T()` for a joint class `T`: `nullptr` when
the next allocation outcome says so, otherwise a fresh joint object built by
the constructor. -/
def newJoint (s : State F CpF) : Option Nat × State F CpF :=
  match s.newOutcomes with
  | false :: rest => (none, { s with newOutcomes := rest })
  | _ =>
    (some s.nextJoint,
      { s with
        joints := Function.update s.joints s.nextJoint (some PhysicsJoint.ctor)
        nextJoint := s.nextJoint + 1
        newOutcomes := s.newOutcomes.tail })

/-- The member `PhysicsJoint::setCollisionEnable`. -/
def PhysicsJoint.setCollisionEnable (s : State F CpF) (this : Nat) (enable : Bool) :
    Except Fault (State F CpF) := do
  let jt ← derefJoint s this
  if jt._collisionEnable != enable then
    return s.setJoint this { jt with _collisionEnable := enable }
  else
    return s

/-- The destructor `PhysicsJoint::~PhysicsJoint`: the body of the destructor,
before the storage of the object is released. -/
def PhysicsJoint.dtor (s : State F CpF) (this : Nat) : Except Fault (State F CpF) := do
  -- reset the shapes collision group
  let s ← PhysicsJoint.setCollisionEnable s this true
  let jt ← derefJoint s this
  return jt._cpConstraints.foldl cpConstraintFree s

/-- The statement `delete joint` for a non-null `joint`: the destructor runs and
the storage of the object is released. -/
def deleteJoint (s : State F CpF) (joint : Nat) : Except Fault (State F CpF) := do
  let s ← PhysicsJoint.dtor s joint
  return { s with joints := Function.update s.joints joint none }

/-- The member `PhysicsJoint::init`. The `return false` after the loop of the
source is not reached by any path: the loop body has no `break`. -/
def PhysicsJoint.init (env : Env F CpF) (s : State F CpF) (this : Nat) (a b : Option Nat) :
    Except Fault (Bool × State F CpF) := do
  CCASSERT env (a != none && b != none)
  CCASSERT env (a != b)
  let jt ← derefJoint s this
  let s := s.setJoint this { jt with _bodyA := a }
  let (ia, bodyA) ← derefBody s a
  let s := s.setBody ia { bodyA with _joints := bodyA._joints ++ [this] }
  let jt ← derefJoint s this
  let s := s.setJoint this { jt with _bodyB := b }
  let (ib, bodyB) ← derefBody s b
  let s := s.setBody ib { bodyB with _joints := bodyB._joints ++ [this] }
  return (true, s)

/-- The member `PhysicsJoint::setEnable`. -/
def PhysicsJoint.setEnable (s : State F CpF) (this : Nat) (enable : Bool) :
    Except Fault (State F CpF) := do
  let jt ← derefJoint s this
  if jt._enable != enable then
    let s := s.setJoint this { jt with _enable := enable }
    if jt._world != none then
      if enable then
        PhysicsWorld.addJointOrDelay s jt._world this
      else
        PhysicsWorld.removeJointOrDelay s jt._world this
    else
      return s
  else
    return s

/-- The member `PhysicsJoint::getBodyNode`. -/
def PhysicsJoint.getBodyNode (s : State F CpF) (body : Option Nat) : Except Fault (Option Nat) := do
  let (_, bd) ← derefBody s body
  return bd._node

/-- The member `PhysicsJoint::removeFormWorld`. -/
def PhysicsJoint.removeFormWorld (s : State F CpF) (this : Nat) : Except Fault (State F CpF) := do
  let jt ← derefJoint s this
  if jt._world != none then
    PhysicsWorld.removeJoint s jt._world this false
  else
    return s

/-- The static member `PhysicsJoint::destroy`. -/
def PhysicsJoint.destroy (s : State F CpF) (joint : Option Nat) : Except Fault (State F CpF) :=
  match joint with
  | none => return s
  | some j => do
    let jt ← derefJoint s j
    -- remove the joint and delete it.
    if jt._world != none then
      PhysicsWorld.removeJoint s jt._world j true
    else
      let s ← if jt._bodyA != none then PhysicsBody.removeJoint s jt._bodyA j else pure s
      let jt ← derefJoint s j
      let s ← if jt._bodyB != none then PhysicsBody.removeJoint s jt._bodyB j else pure s
      deleteJoint s j

/-- The member `PhysicsJoint::setMaxForce`: the loop body, for one constraint. -/
def setMaxForceOne (env : Env F CpF) (force : F) (s : State F CpF) (constraint : Nat) :
    Except Fault (State F CpF) := do
  let c ← derefConstraint s constraint
  return s.setConstraint constraint { c with maxForce := env.float2cpfloat force }

/-- The member `PhysicsJoint::setMaxForce`. -/
def PhysicsJoint.setMaxForce (env : Env F CpF) (s : State F CpF) (this : Nat) (force : F) :
    Except Fault (State F CpF) := do
  let jt ← derefJoint s this
  jt._cpConstraints.foldlM (setMaxForceOne env force) s

/-- The member `PhysicsJoint::getMaxForce`. -/
def PhysicsJoint.getMaxForce (env : Env F CpF) (s : State F CpF) (this : Nat) :
    Except Fault F := do
  let h ← front s this
  let c ← derefConstraint s h
  return env.cpfloat2float c.maxForce

/-- The statement `_cpConstraints.push_back(constraint)`. -/
def pushConstraint (s : State F CpF) (this : Nat) (constraint : Nat) :
    Except Fault (State F CpF) := do
  let jt ← derefJoint s this
  return s.setJoint this { jt with _cpConstraints := jt._cpConstraints ++ [constraint] }

/-- The body shared by every `construct`: allocate the joint, run the `init` of
the class, return the joint on success, and otherwise `CC_SAFE_DELETE` it and
return `nullptr`. -/
def constructWith (s : State F CpF)
    (init : State F CpF → Nat → Except Fault (Bool × State F CpF)) :
    Except Fault (Option Nat × State F CpF) := do
  let (joint, s) := newJoint s
  match joint with
  | none => return (none, s)
  | some j =>
    let (ok, s) ← init s j
    if ok then
      return (some j, s)
    else
      let s ← deleteJoint s j
      return (none, s)

/-! ## The joint classes -/

/-- The member `PhysicsJointFixed::init`. -/
def PhysicsJointFixed.init (env : Env F CpF) [Zero CpF] [One CpF] (s : State F CpF) (this : Nat)
    (a b : Option Nat) (anchr : Vec2 F) : Except Fault (Bool × State F CpF) := do
  let (ok, s) ← PhysicsJoint.init env s this a b
  if !ok then return (false, s)
  let nodeA ← PhysicsJoint.getBodyNode s a
  let s ← Node.setPosition s nodeA anchr
  let nodeB ← PhysicsJoint.getBodyNode s b
  let s ← Node.setPosition s nodeB anchr
  -- add a pivot joint to fixed two body together
  let cpA ← getCPBody s a
  let cpB ← getCPBody s b
  let (constraint, s) := cpConstraintNew env s cpA cpB (.pivot (env.point2cpv anchr))
  match constraint with
  | none => return (false, s)
  | some c =>
    let s ← pushConstraint s this c
    -- add a gear joint to make two body have the same rotation.
    let cpA ← getCPBody s a
    let cpB ← getCPBody s b
    let (constraint, s) := cpConstraintNew env s cpA cpB (.gear 0 1)
    match constraint with
    | none => return (false, s)
    | some c =>
      let s ← pushConstraint s this c
      let s ← PhysicsJoint.setCollisionEnable s this false
      return (true, s)

/-- The static member `PhysicsJointFixed::construct`. -/
def PhysicsJointFixed.construct (env : Env F CpF) [Zero CpF] [One CpF] (s : State F CpF)
    (a b : Option Nat) (anchr : Vec2 F) : Except Fault (Option Nat × State F CpF) :=
  constructWith s fun s joint => PhysicsJointFixed.init env s joint a b anchr

/-- The tail shared by the `init` of the ten classes that own one constraint,
after the factory call: `CC_BREAK_IF(constraint == nullptr)`,
`_cpConstraints.push_back(constraint)`, `return true`. -/
def finishInit (this : Nat) (r : Option Nat × State F CpF) : Except Fault (Bool × State F CpF) :=
  match r with
  | (none, s) => return (false, s)
  | (some c, s) => do
    let s ← pushConstraint s this c
    return (true, s)

/-- The member `PhysicsJointPin::init`. -/
def PhysicsJointPin.init (env : Env F CpF) (s : State F CpF) (this : Nat)
    (a b : Option Nat) (anchr : Vec2 F) : Except Fault (Bool × State F CpF) := do
  let (ok, s) ← PhysicsJoint.init env s this a b
  if !ok then return (false, s)
  let cpA ← getCPBody s a
  let cpB ← getCPBody s b
  finishInit this (cpConstraintNew env s cpA cpB (.pivot (env.point2cpv anchr)))

/-- The static member `PhysicsJointPin::construct`. -/
def PhysicsJointPin.construct (env : Env F CpF) (s : State F CpF)
    (a b : Option Nat) (anchr : Vec2 F) : Except Fault (Option Nat × State F CpF) :=
  constructWith s fun s joint => PhysicsJointPin.init env s joint a b anchr

/-- The member `PhysicsJointLimit::init`. -/
def PhysicsJointLimit.init (env : Env F CpF) (s : State F CpF) (this : Nat)
    (a b : Option Nat) (anchr1 anchr2 : Vec2 F) (min max : F) :
    Except Fault (Bool × State F CpF) := do
  let (ok, s) ← PhysicsJoint.init env s this a b
  if !ok then return (false, s)
  let cpA ← getCPBody s a
  let cpB ← getCPBody s b
  finishInit this (cpConstraintNew env s cpA cpB
    (.slide (env.point2cpv anchr1) (env.point2cpv anchr2)
      (env.float2cpfloat min) (env.float2cpfloat max)))

/-- The static member `PhysicsJointLimit::construct` with six arguments. -/
def PhysicsJointLimit.construct (env : Env F CpF) (s : State F CpF)
    (a b : Option Nat) (anchr1 anchr2 : Vec2 F) (min max : F) :
    Except Fault (Option Nat × State F CpF) :=
  constructWith s fun s joint => PhysicsJointLimit.init env s joint a b anchr1 anchr2 min max

/-- The static member `PhysicsJointLimit::construct` with four arguments. -/
def PhysicsJointLimit.construct4 (env : Env F CpF) [Zero F] (s : State F CpF)
    (a b : Option Nat) (anchr1 anchr2 : Vec2 F) : Except Fault (Option Nat × State F CpF) := do
  let p ← local2World env s b anchr1
  let q ← local2World env s a anchr2
  PhysicsJointLimit.construct env s a b anchr1 anchr2 0 (env.getDistance p q)

/-- The member `PhysicsJointDistance::init`. -/
def PhysicsJointDistance.init (env : Env F CpF) (s : State F CpF) (this : Nat)
    (a b : Option Nat) (anchr1 anchr2 : Vec2 F) : Except Fault (Bool × State F CpF) := do
  let (ok, s) ← PhysicsJoint.init env s this a b
  if !ok then return (false, s)
  let cpA ← getCPBody s a
  let cpB ← getCPBody s b
  finishInit this (cpConstraintNew env s cpA cpB
    (.pin (env.point2cpv anchr1) (env.point2cpv anchr2)))

/-- The static member `PhysicsJointDistance::construct`. -/
def PhysicsJointDistance.construct (env : Env F CpF) (s : State F CpF)
    (a b : Option Nat) (anchr1 anchr2 : Vec2 F) : Except Fault (Option Nat × State F CpF) :=
  constructWith s fun s joint => PhysicsJointDistance.init env s joint a b anchr1 anchr2

/-- The member `PhysicsJointSpring::init`. -/
def PhysicsJointSpring.init (env : Env F CpF) (s : State F CpF) (this : Nat)
    (a b : Option Nat) (anchr1 anchr2 : Vec2 F) (stiffness damping : F) :
    Except Fault (Bool × State F CpF) := do
  let (ok, s) ← PhysicsJoint.init env s this a b
  if !ok then return (false, s)
  let cpA ← getCPBody s a
  let cpB ← getCPBody s b
  let jt ← derefJoint s this
  let p ← local2World env s jt._bodyB anchr1
  let q ← local2World env s jt._bodyA anchr2
  finishInit this (cpConstraintNew env s cpA cpB
    (.dampedSpring (env.point2cpv anchr1) (env.point2cpv anchr2)
      (env.float2cpfloat (env.getDistance p q))
      (env.float2cpfloat stiffness) (env.float2cpfloat damping)))

/-- The static member `PhysicsJointSpring::construct`. -/
def PhysicsJointSpring.construct (env : Env F CpF) (s : State F CpF)
    (a b : Option Nat) (anchr1 anchr2 : Vec2 F) (stiffness damping : F) :
    Except Fault (Option Nat × State F CpF) :=
  constructWith s fun s joint =>
    PhysicsJointSpring.init env s joint a b anchr1 anchr2 stiffness damping

/-- The member `PhysicsJointGroove::init`. -/
def PhysicsJointGroove.init (env : Env F CpF) (s : State F CpF) (this : Nat)
    (a b : Option Nat) (grooveA grooveB anchr2 : Vec2 F) : Except Fault (Bool × State F CpF) := do
  let (ok, s) ← PhysicsJoint.init env s this a b
  if !ok then return (false, s)
  let cpA ← getCPBody s a
  let cpB ← getCPBody s b
  finishInit this (cpConstraintNew env s cpA cpB
    (.groove (env.point2cpv grooveA) (env.point2cpv grooveB) (env.point2cpv anchr2)))

/-- The static member `PhysicsJointGroove::construct`. -/
def PhysicsJointGroove.construct (env : Env F CpF) (s : State F CpF)
    (a b : Option Nat) (grooveA grooveB anchr2 : Vec2 F) :
    Except Fault (Option Nat × State F CpF) :=
  constructWith s fun s joint => PhysicsJointGroove.init env s joint a b grooveA grooveB anchr2

/-- The member `PhysicsJointRotarySpring::init`. -/
def PhysicsJointRotarySpring.init (env : Env F CpF) [Sub F] (s : State F CpF) (this : Nat)
    (a b : Option Nat) (stiffness damping : F) : Except Fault (Bool × State F CpF) := do
  let (ok, s) ← PhysicsJoint.init env s this a b
  if !ok then return (false, s)
  let cpA ← getCPBody s a
  let cpB ← getCPBody s b
  let jt ← derefJoint s this
  let rotB ← getRotation s jt._bodyB
  let rotA ← getRotation s jt._bodyA
  finishInit this (cpConstraintNew env s cpA cpB
    (.dampedRotarySpring (env.float2cpfloat (rotB - rotA))
      (env.float2cpfloat stiffness) (env.float2cpfloat damping)))

/-- The static member `PhysicsJointRotarySpring::construct`. -/
def PhysicsJointRotarySpring.construct (env : Env F CpF) [Sub F] (s : State F CpF)
    (a b : Option Nat) (stiffness damping : F) : Except Fault (Option Nat × State F CpF) :=
  constructWith s fun s joint => PhysicsJointRotarySpring.init env s joint a b stiffness damping

/-- The member `PhysicsJointRotaryLimit::init`. -/
def PhysicsJointRotaryLimit.init (env : Env F CpF) (s : State F CpF) (this : Nat)
    (a b : Option Nat) (min max : F) : Except Fault (Bool × State F CpF) := do
  let (ok, s) ← PhysicsJoint.init env s this a b
  if !ok then return (false, s)
  let cpA ← getCPBody s a
  let cpB ← getCPBody s b
  finishInit this (cpConstraintNew env s cpA cpB
    (.rotaryLimit (env.float2cpfloat min) (env.float2cpfloat max)))

/-- The static member `PhysicsJointRotaryLimit::construct` with four arguments. -/
def PhysicsJointRotaryLimit.construct (env : Env F CpF) (s : State F CpF)
    (a b : Option Nat) (min max : F) : Except Fault (Option Nat × State F CpF) :=
  constructWith s fun s joint => PhysicsJointRotaryLimit.init env s joint a b min max

/-- The static member `PhysicsJointRotaryLimit::construct` with two arguments. -/
def PhysicsJointRotaryLimit.construct2 (env : Env F CpF) [Zero F] (s : State F CpF)
    (a b : Option Nat) : Except Fault (Option Nat × State F CpF) :=
  PhysicsJointRotaryLimit.construct env s a b 0 0

/-- The member `PhysicsJointRatchet::init`. The source passes
`PhysicsHelper::cpfloat2float(ratchet)` as the last factory argument: the
`float` is converted to `cpFloat` for the call and the result back to `cpFloat`
for the factory. -/
def PhysicsJointRatchet.init (env : Env F CpF) (s : State F CpF) (this : Nat)
    (a b : Option Nat) (phase ratchet : F) : Except Fault (Bool × State F CpF) := do
  let (ok, s) ← PhysicsJoint.init env s this a b
  if !ok then return (false, s)
  let cpA ← getCPBody s a
  let cpB ← getCPBody s b
  finishInit this (cpConstraintNew env s cpA cpB
    (.ratchet (env.float2cpfloat phase)
      (env.implicitCast (env.cpfloat2float (env.implicitCast ratchet)))))

/-- The static member `PhysicsJointRatchet::construct`. -/
def PhysicsJointRatchet.construct (env : Env F CpF) (s : State F CpF)
    (a b : Option Nat) (phase ratchet : F) : Except Fault (Option Nat × State F CpF) :=
  constructWith s fun s joint => PhysicsJointRatchet.init env s joint a b phase ratchet

/-- The member `PhysicsJointGear::init`. -/
def PhysicsJointGear.init (env : Env F CpF) (s : State F CpF) (this : Nat)
    (a b : Option Nat) (phase gearRatio : F) : Except Fault (Bool × State F CpF) := do
  let (ok, s) ← PhysicsJoint.init env s this a b
  if !ok then return (false, s)
  let cpA ← getCPBody s a
  let cpB ← getCPBody s b
  finishInit this (cpConstraintNew env s cpA cpB
    (.gear (env.float2cpfloat phase) (env.float2cpfloat gearRatio)))

/-- The static member `PhysicsJointGear::construct`. -/
def PhysicsJointGear.construct (env : Env F CpF) (s : State F CpF)
    (a b : Option Nat) (phase ratchet : F) : Except Fault (Option Nat × State F CpF) :=
  constructWith s fun s joint => PhysicsJointGear.init env s joint a b phase ratchet

/-- The member `PhysicsJointMotor::init`. -/
def PhysicsJointMotor.init (env : Env F CpF) (s : State F CpF) (this : Nat)
    (a b : Option Nat) (rate : F) : Except Fault (Bool × State F CpF) := do
  let (ok, s) ← PhysicsJoint.init env s this a b
  if !ok then return (false, s)
  let cpA ← getCPBody s a
  let cpB ← getCPBody s b
  finishInit this (cpConstraintNew env s cpA cpB (.simpleMotor (env.float2cpfloat rate)))

/-- The static member `PhysicsJointMotor::construct`. -/
def PhysicsJointMotor.construct (env : Env F CpF) (s : State F CpF)
    (a b : Option Nat) (rate : F) : Except Fault (Option Nat × State F CpF) :=
  constructWith s fun s joint => PhysicsJointMotor.init env s joint a b rate

/-- The typed accessors of the slide joint, `cpSlideJointGetMin` and
`cpSlideJointGetMax`, on a constraint object. -/
def cpSlideJointGet (c : cpConstraint CpF) : Except Fault (CpF × CpF) :=
  match c.kind with
  | .slide _ _ min max => .ok (min, max)
  | _ => .error .wrongKind

/-- The member `PhysicsJointLimit::getMin`. -/
def PhysicsJointLimit.getMin (env : Env F CpF) (s : State F CpF) (this : Nat) :
    Except Fault F := do
  let h ← front s this
  let c ← derefConstraint s h
  let (min, _) ← cpSlideJointGet c
  return env.cpfloat2float min

/-- The member `PhysicsJointLimit::getMax`. -/
def PhysicsJointLimit.getMax (env : Env F CpF) (s : State F CpF) (this : Nat) :
    Except Fault F := do
  let h ← front s this
  let c ← derefConstraint s h
  let (_, max) ← cpSlideJointGet c
  return env.cpfloat2float max

/-- The typed accessors of the rotary limit joint, `cpRotaryLimitJointGetMin` and
`cpRotaryLimitJointGetMax`, on a constraint object. -/
def cpRotaryLimitJointGet (c : cpConstraint CpF) : Except Fault (CpF × CpF) :=
  match c.kind with
  | .rotaryLimit min max => .ok (min, max)
  | _ => .error .wrongKind

/-- The member `PhysicsJointRotaryLimit::getMin`. -/
def PhysicsJointRotaryLimit.getMin (env : Env F CpF) (s : State F CpF) (this : Nat) :
    Except Fault F := do
  let h ← front s this
  let c ← derefConstraint s h
  let (min, _) ← cpRotaryLimitJointGet c
  return env.cpfloat2float min

/-- The member `PhysicsJointRotaryLimit::getMax`. -/
def PhysicsJointRotaryLimit.getMax (env : Env F CpF) (s : State F CpF) (this : Nat) :
    Except Fault F := do
  let h ← front s this
  let c ← derefConstraint s h
  let (_, max) ← cpRotaryLimitJointGet c
  return env.cpfloat2float max

/-! ## Anchor accessors -/

/-- The engine accessors `cpSlideJointGetAnchr1` and `cpSlideJointGetAnchr2`. -/
def cpSlideJointGetAnchrs (c : cpConstraint CpF) : Except Fault (cpVect CpF × cpVect CpF) :=
  match c.kind with
  | .slide anchr1 anchr2 _ _ => .ok (anchr1, anchr2)
  | _ => .error .wrongKind

/-- The engine accessor `cpSlideJointSetAnchr1`. -/
def cpSlideJointSetAnchr1 (c : cpConstraint CpF) (v : cpVect CpF) :
    Except Fault (cpConstraint CpF) :=
  match c.kind with
  | .slide _ anchr2 min max => .ok { c with kind := .slide v anchr2 min max }
  | _ => .error .wrongKind

/-- The engine accessors `cpDampedSpringGetAnchr1` and `cpDampedSpringGetAnchr2`. -/
def cpDampedSpringGetAnchrs (c : cpConstraint CpF) : Except Fault (cpVect CpF × cpVect CpF) :=
  match c.kind with
  | .dampedSpring anchr1 anchr2 _ _ _ => .ok (anchr1, anchr2)
  | _ => .error .wrongKind

/-- The engine accessor `cpDampedSpringSetAnchr1`. -/
def cpDampedSpringSetAnchr1 (c : cpConstraint CpF) (v : cpVect CpF) :
    Except Fault (cpConstraint CpF) :=
  match c.kind with
  | .dampedSpring _ anchr2 restLength stiffness damping =>
    .ok { c with kind := .dampedSpring v anchr2 restLength stiffness damping }
  | _ => .error .wrongKind

/-- The engine accessor `cpGrooveJointGetAnchr2`. -/
def cpGrooveJointGetAnchr2 (c : cpConstraint CpF) : Except Fault (cpVect CpF) :=
  match c.kind with
  | .groove _ _ anchr2 => .ok anchr2
  | _ => .error .wrongKind

/-- The engine accessor `cpGrooveJointSetAnchr2`. -/
def cpGrooveJointSetAnchr2 (c : cpConstraint CpF) (v : cpVect CpF) :
    Except Fault (cpConstraint CpF) :=
  match c.kind with
  | .groove grooveA grooveB _ => .ok { c with kind := .groove grooveA grooveB v }
  | _ => .error .wrongKind

/-- The member `PhysicsJointLimit::getAnchr1`. -/
def PhysicsJointLimit.getAnchr1 (env : Env F CpF) (s : State F CpF) (this : Nat) :
    Except Fault (Vec2 F) := do
  let h ← front s this
  let c ← derefConstraint s h
  let (anchr1, _) ← cpSlideJointGetAnchrs c
  return env.cpv2point anchr1

/-- The member `PhysicsJointLimit::setAnchr1`. -/
def PhysicsJointLimit.setAnchr1 (env : Env F CpF) (s : State F CpF) (this : Nat)
    (anchr : Vec2 F) : Except Fault (State F CpF) := do
  let h ← front s this
  let c ← derefConstraint s h
  let c ← cpSlideJointSetAnchr1 c (env.point2cpv anchr)
  return s.setConstraint h c

/-- The member `PhysicsJointLimit::getAnchr2`. -/
def PhysicsJointLimit.getAnchr2 (env : Env F CpF) (s : State F CpF) (this : Nat) :
    Except Fault (Vec2 F) := do
  let h ← front s this
  let c ← derefConstraint s h
  let (_, anchr2) ← cpSlideJointGetAnchrs c
  return env.cpv2point anchr2

/-- The member `PhysicsJointLimit::setAnchr2`; the source calls
`cpSlideJointSetAnchr1` here. -/
def PhysicsJointLimit.setAnchr2 (env : Env F CpF) (s : State F CpF) (this : Nat)
    (anchr : Vec2 F) : Except Fault (State F CpF) := do
  let h ← front s this
  let c ← derefConstraint s h
  let c ← cpSlideJointSetAnchr1 c (env.point2cpv anchr)
  return s.setConstraint h c

/-- The member `PhysicsJointSpring::getAnchr1`. -/
def PhysicsJointSpring.getAnchr1 (env : Env F CpF) (s : State F CpF) (this : Nat) :
    Except Fault (Vec2 F) := do
  let h ← front s this
  let c ← derefConstraint s h
  let (anchr1, _) ← cpDampedSpringGetAnchrs c
  return env.cpv2point anchr1

/-- The member `PhysicsJointSpring::setAnchr1`. -/
def PhysicsJointSpring.setAnchr1 (env : Env F CpF) (s : State F CpF) (this : Nat)
    (anchr : Vec2 F) : Except Fault (State F CpF) := do
  let h ← front s this
  let c ← derefConstraint s h
  let c ← cpDampedSpringSetAnchr1 c (env.point2cpv anchr)
  return s.setConstraint h c

/-- The member `PhysicsJointSpring::getAnchr2`. -/
def PhysicsJointSpring.getAnchr2 (env : Env F CpF) (s : State F CpF) (this : Nat) :
    Except Fault (Vec2 F) := do
  let h ← front s this
  let c ← derefConstraint s h
  let (_, anchr2) ← cpDampedSpringGetAnchrs c
  return env.cpv2point anchr2

/-- The member `PhysicsJointSpring::setAnchr2`; the source calls
`cpDampedSpringSetAnchr1` here. -/
def PhysicsJointSpring.setAnchr2 (env : Env F CpF) (s : State F CpF) (this : Nat)
    (anchr : Vec2 F) : Except Fault (State F CpF) := do
  let h ← front s this
  let c ← derefConstraint s h
  let c ← cpDampedSpringSetAnchr1 c (env.point2cpv anchr)
  return s.setConstraint h c

/-- The member `PhysicsJointGroove::getAnchr2`. -/
def PhysicsJointGroove.getAnchr2 (env : Env F CpF) (s : State F CpF) (this : Nat) :
    Except Fault (Vec2 F) := do
  let h ← front s this
  let c ← derefConstraint s h
  let anchr2 ← cpGrooveJointGetAnchr2 c
  return env.cpv2point anchr2

/-- The member `PhysicsJointGroove::setAnchr2`. -/
def PhysicsJointGroove.setAnchr2 (env : Env F CpF) (s : State F CpF) (this : Nat)
    (anchr2 : Vec2 F) : Except Fault (State F CpF) := do
  let h ← front s this
  let c ← derefConstraint s h
  let c ← cpGrooveJointSetAnchr2 c (env.point2cpv anchr2)
  return s.setConstraint h c

/-! ## All the ways to construct a joint -/

/-- The eleven joint classes. -/
inductive Variant where
  | fixed | pin | limit | distance | spring | groove
  | rotarySpring | rotaryLimit | ratchet | gear | motor
deriving DecidableEq

/-- The argument lists, after the two bodies, of the thirteen `construct`
functions of the source. -/
inductive Args (F : Type) where
  | fixed (anchr : Vec2 F)
  | pin (anchr : Vec2 F)
  | limit (anchr1 anchr2 : Vec2 F) (min max : F)
  | limit4 (anchr1 anchr2 : Vec2 F)
  | distance (anchr1 anchr2 : Vec2 F)
  | spring (anchr1 anchr2 : Vec2 F) (stiffness damping : F)
  | groove (grooveA grooveB anchr2 : Vec2 F)
  | rotarySpring (stiffness damping : F)
  | rotaryLimit (min max : F)
  | rotaryLimit2
  | ratchet (phase ratchet : F)
  | gear (phase ratchet : F)
  | motor (rate : F)
deriving DecidableEq

/-- The class whose `construct` takes the argument list. -/
def Args.variant : Args F → Variant
  | .fixed _ => .fixed
  | .pin _ => .pin
  | .limit _ _ _ _ => .limit
  | .limit4 _ _ => .limit
  | .distance _ _ => .distance
  | .spring _ _ _ _ => .spring
  | .groove _ _ _ => .groove
  | .rotarySpring _ _ => .rotarySpring
  | .rotaryLimit _ _ => .rotaryLimit
  | .rotaryLimit2 => .rotaryLimit
  | .ratchet _ _ => .ratchet
  | .gear _ _ => .gear
  | .motor _ => .motor

/-- The number of factory calls the `init` of a class makes on its way to
`return true`. -/
def Variant.factoryCalls : Variant → Nat
  | .fixed => 2
  | _ => 1

/-- The call `PhysicsJointX::construct(a, b, ...)` for each class `X` and
argument list. -/
def construct (env : Env F CpF) [Zero F] [Sub F] [Zero CpF] [One CpF] (s : State F CpF)
    (a b : Option Nat) : Args F → Except Fault (Option Nat × State F CpF)
  | .fixed anchr => PhysicsJointFixed.construct env s a b anchr
  | .pin anchr => PhysicsJointPin.construct env s a b anchr
  | .limit anchr1 anchr2 min max => PhysicsJointLimit.construct env s a b anchr1 anchr2 min max
  | .limit4 anchr1 anchr2 => PhysicsJointLimit.construct4 env s a b anchr1 anchr2
  | .distance anchr1 anchr2 => PhysicsJointDistance.construct env s a b anchr1 anchr2
  | .spring anchr1 anchr2 stiffness damping =>
    PhysicsJointSpring.construct env s a b anchr1 anchr2 stiffness damping
  | .groove grooveA grooveB anchr2 => PhysicsJointGroove.construct env s a b grooveA grooveB anchr2
  | .rotarySpring stiffness damping => PhysicsJointRotarySpring.construct env s a b stiffness damping
  | .rotaryLimit min max => PhysicsJointRotaryLimit.construct env s a b min max
  | .rotaryLimit2 => PhysicsJointRotaryLimit.construct2 env s a b
  | .ratchet phase ratchet => PhysicsJointRatchet.construct env s a b phase ratchet
  | .gear phase ratchet => PhysicsJointGear.construct env s a b phase ratchet
  | .motor rate => PhysicsJointMotor.construct env s a b rate

/-! ## A concrete build and a concrete scene

Integers stand in for both numeric types: a `cpFloat` is twice the `float`, a
point in world space is the local point moved by the body's position, and the
distance is the taxicab distance. -/

/-- A concrete build; `asserts` chooses whether `CCASSERT` is checked. -/
def demoEnv (asserts : Bool) : Env Int Int :=
  { assertsEnabled := asserts
    float2cpfloat := fun f => f * 2
    cpfloat2float := fun c => c / 2
    point2cpv := fun p => { x := p.x * 2, y := p.y * 2 }
    cpv2point := fun v => { x := v.x / 2, y := v.y / 2 }
    implicitCast := fun f => f * 2
    local2World := fun bd p => { x := p.x + bd.position.x, y := p.y + bd.position.y }
    getDistance := fun p q => (p.x - q.x).natAbs + (p.y - q.y).natAbs
    maxForceDefault := 1000000 }

/-- A scene with two bodies, at addresses 0 and 1, each with a node (10 and 11),
one idle world at address 0, no joint and no constraint. -/
def demoState : State Int Int :=
  { joints := fun _ => none
    nextJoint := 0
    newOutcomes := []
    bodies := fun i =>
      if i = 0 then
        some { _joints := [], _node := some 10, _cpBody := 100, position := ⟨0, 0⟩, rotation := 0 }
      else if i = 1 then
        some { _joints := [], _node := some 11, _cpBody := 101, position := ⟨3, 4⟩, rotation := 5 }
      else none
    nodes := fun i =>
      if i = 10 then some { position := ⟨0, 0⟩ }
      else if i = 11 then some { position := ⟨3, 4⟩ }
      else none
    worlds := fun i => if i = 0 then some { active := [], pending := [], locked := false } else none
    constraints := fun _ => none
    nextHandle := 0
    factoryOutcomes := []
    trace := [] }

/-- The scene `demoState` with a joint at address 0 between the bodies 0 and 1,
outside every world, with collision disabled, that owns the handles 4 and 9. -/
def demoDetached : State Int Int :=
  demoState.setJoint 0
    { PhysicsJoint.ctor with
      _bodyA := some 0, _bodyB := some 1, _collisionEnable := false, _cpConstraints := [4, 9] }

/-- The scene `demoState` with a disabled joint at address 0 between the bodies 0
and 1, in the world at address 0, that owns the handle 4. -/
def demoAttached : State Int Int :=
  demoState.setJoint 0
    { PhysicsJoint.ctor with
      _bodyA := some 0, _bodyB := some 1, _world := some 0, _cpConstraints := [4] }

/-- The scene `demoState` with a joint at address 0 between the bodies 0 and 1
that owns the handle 4, a slide constraint with anchors (2, 4) and (6, 8). -/
def demoLimit : State Int Int :=
  (demoState.setJoint 0
    { PhysicsJoint.ctor with
      _bodyA := some 0, _bodyB := some 1, _cpConstraints := [4] }).setConstraint 4
    { a := 100, b := 101, maxForce := 1000000, kind := .slide ⟨2, 4⟩ ⟨6, 8⟩ 0 20 }

/-- A body pointer that `construct` of the class `v` can work with: non-null and
alive, and for the fixed joint, whose `init` moves the nodes of both bodies, with
a node that is alive. -/
def validBody (s : State F CpF) (v : Variant) (p : Option Nat) : Bool :=
  match p with
  | none => false
  | some i =>
    match s.bodies i with
    | none => false
    | some bd =>
      v != .fixed ||
        (match bd._node with
          | none => false
          | some n => (s.nodes n).isSome)

/-- A world holds pending requests only while a step is in progress. -/
def PhysicsWorld.wellFormed (w : PhysicsWorld) : Bool :=
  w.locked || w.pending.isEmpty

/-- The first component of a result, when the call returned. -/
def returned {α σ : Type} (r : Except Fault (α × σ)) : Option α :=
  match r with
  | .ok (x, _) => some x
  | .error _ => none

/-- The state after a call, when the call returned. -/
def stateAfter {α σ : Type} (r : Except Fault (α × σ)) : Option σ :=
  match r with
  | .ok (_, s) => some s
  | .error _ => none


/-! ## Inversion lemmas: what a call did when it returned -/

theorem bind_ok_iff {ε α β : Type} (x : Except ε α) (f : α → Except ε β) (b : β) :
    (x >>= f) = Except.ok b ↔ ∃ a, x = Except.ok a ∧ f a = Except.ok b := by
  cases x with
  | error e => simp [bind, Except.bind]
  | ok a => simp [bind, Except.bind]

theorem pure_ok_iff {ε α : Type} (a b : α) :
    (pure a : Except ε α) = Except.ok b ↔ a = b := by
  simp [pure, Except.pure]

theorem derefJoint_ok (s : State F CpF) (j : Nat) (jt : PhysicsJoint) :
    derefJoint s j = .ok jt ↔ s.joints j = some jt := by
  unfold derefJoint
  cases h : s.joints j <;> simp

theorem derefBody_ok (s : State F CpF) (p : Option Nat) (r : Nat × PhysicsBody F) :
    derefBody s p = .ok r ↔ p = some r.1 ∧ s.bodies r.1 = some r.2 := by
  unfold derefBody
  obtain ⟨i, bd⟩ := r
  cases p with
  | none => simp
  | some b =>
    by_cases hb : b = i
    · subst hb
      cases h : s.bodies b <;> simp [h]
    · cases h : s.bodies b <;> simp [h, hb]


theorem init_ok (env : Env F CpF) (s s1 : State F CpF) (this : Nat) (a b : Option Nat) (r : Bool)
    (h : PhysicsJoint.init env s this a b = .ok (r, s1)) :
    r = true ∧ ∃ jt bodies, s.joints this = some jt ∧
      s1 = { s with
        joints := Function.update s.joints this (some { jt with _bodyA := a, _bodyB := b })
        bodies := bodies } := by
  simp only [PhysicsJoint.init, bind_ok_iff, pure_ok_iff, derefJoint_ok, derefBody_ok,
    Prod.exists, Prod.mk.injEq, State.setJoint, State.setBody] at h
  obtain ⟨_, _, _, _, jt, hjt, ia, ba, _, jt2, hjt2, ib, bb, _, rfl, rfl⟩ := h
  simp at hjt2
  subst hjt2
  refine ⟨rfl, jt, Function.update (Function.update s.bodies ia
    (some { ba with _joints := ba._joints ++ [this] })) ib
    (some { bb with _joints := bb._joints ++ [this] }), hjt, ?_⟩
  simp

theorem derefConstraint_ok (s : State F CpF) (h : Nat) (c : cpConstraint CpF) :
    derefConstraint s h = .ok c ↔ s.constraints h = some c := by
  unfold derefConstraint
  cases hc : s.constraints h <;> simp

theorem newJoint_cases (s : State F CpF) :
    (∃ rest, s.newOutcomes = false :: rest ∧
      newJoint s = (none, { s with newOutcomes := rest })) ∨
    (s.newOutcomes.head? ≠ some false ∧
      newJoint s = (some s.nextJoint,
        { s with
          joints := Function.update s.joints s.nextJoint (some PhysicsJoint.ctor)
          nextJoint := s.nextJoint + 1
          newOutcomes := s.newOutcomes.tail })) := by
  unfold newJoint
  rcases hn : s.newOutcomes with _ | ⟨_ | _, rest⟩ <;> simp

theorem cpConstraintNew_cases (env : Env F CpF) (s : State F CpF) (a b : Nat)
    (K : ConstraintKind CpF) :
    (∃ rest, s.factoryOutcomes = false :: rest ∧
      cpConstraintNew env s a b K = (none, { s with factoryOutcomes := rest })) ∨
    (s.factoryOutcomes.head? ≠ some false ∧
      cpConstraintNew env s a b K = (some s.nextHandle,
        { s with
          constraints := Function.update s.constraints s.nextHandle
            (some { a := a, b := b, maxForce := env.maxForceDefault, kind := K })
          nextHandle := s.nextHandle + 1
          factoryOutcomes := s.factoryOutcomes.tail })) := by
  unfold cpConstraintNew
  rcases hn : s.factoryOutcomes with _ | ⟨_ | _, rest⟩ <;> simp

theorem constructWith_some (s s' : State F CpF)
    (init : State F CpF → Nat → Except Fault (Bool × State F CpF)) (j : Nat)
    (h : constructWith s init = .ok (some j, s')) :
    j = s.nextJoint ∧
      init { s with
        joints := Function.update s.joints s.nextJoint (some PhysicsJoint.ctor)
        nextJoint := s.nextJoint + 1
        newOutcomes := s.newOutcomes.tail } j = .ok (true, s') := by
  unfold constructWith at h
  rcases newJoint_cases s with ⟨rest, _, hn⟩ | ⟨_, hn⟩
  · simp [hn, pure, Except.pure] at h
  · simp only [hn, bind_ok_iff, Prod.exists] at h
    obtain ⟨ok, s1, h1, h2⟩ := h
    cases ok with
    | false =>
      simp only [bind_ok_iff, pure_ok_iff, Prod.mk.injEq, Bool.false_eq_true, if_false] at h2
      obtain ⟨_, _, h3, _⟩ := h2
      simp at h3
    | true =>
      simp only [if_true, pure_ok_iff, Prod.mk.injEq, Option.some.injEq] at h2
      obtain ⟨rfl, rfl⟩ := h2
      exact ⟨rfl, h1⟩

theorem finishInit_true (env : Env F CpF) (s1 s' : State F CpF) (this cA cB : Nat)
    (K : ConstraintKind CpF)
    (h : finishInit this (cpConstraintNew env s1 cA cB K) = .ok (true, s')) :
    ∃ jt, s1.joints this = some jt ∧
      s' = { s1 with
        joints := Function.update s1.joints this
          (some { jt with _cpConstraints := jt._cpConstraints ++ [s1.nextHandle] })
        constraints := Function.update s1.constraints s1.nextHandle
          (some { a := cA, b := cB, maxForce := env.maxForceDefault, kind := K })
        nextHandle := s1.nextHandle + 1
        factoryOutcomes := s1.factoryOutcomes.tail } := by
  rcases cpConstraintNew_cases env s1 cA cB K with ⟨rest, _, hn⟩ | ⟨_, hn⟩
  · simp [hn, finishInit, pure, Except.pure] at h
  · simp only [hn, finishInit, pushConstraint, bind_ok_iff, pure_ok_iff, derefJoint_ok,
      Prod.mk.injEq, State.setJoint, true_and] at h
    obtain ⟨_, ⟨jt, hjt, rfl⟩, rfl⟩ := h
    exact ⟨jt, hjt, rfl⟩

/-- What a successful `init` of a class with one constraint leaves behind. -/
theorem single_true (env : Env F CpF) (s s1 s' : State F CpF) (this cA cB : Nat)
    (a b : Option Nat) (K : ConstraintKind CpF) (ok : Bool)
    (h1 : PhysicsJoint.init env s this a b = .ok (ok, s1))
    (h2 : finishInit this (cpConstraintNew env s1 cA cB K) = .ok (true, s')) :
    ∃ jt, s.joints this = some jt ∧
      s'.joints this = some { jt with
        _bodyA := a, _bodyB := b, _cpConstraints := jt._cpConstraints ++ [s.nextHandle] } ∧
      s'.constraints s.nextHandle =
        some { a := cA, b := cB, maxForce := env.maxForceDefault, kind := K } ∧
      s'.trace = s.trace := by
  obtain ⟨-, jt, bodies, hjt, rfl⟩ := init_ok env s s1 this a b ok h1
  obtain ⟨jt1, hjt1, rfl⟩ := finishInit_true env _ s' this cA cB K h2
  simp at hjt1
  subst hjt1
  exact ⟨jt, hjt, by simp, by simp, rfl⟩


theorem pin_init_true (env : Env F CpF) (s s' : State F CpF) (this : Nat)
    (a b : Option Nat) (anchr : Vec2 F)
    (h : PhysicsJointPin.init env s this a b anchr = .ok (true, s')) :
    ∃ jt c, s.joints this = some jt ∧
      s'.joints this = some { jt with
        _bodyA := a, _bodyB := b, _cpConstraints := jt._cpConstraints ++ [s.nextHandle] } ∧
      s'.constraints s.nextHandle = some c ∧ s'.trace = s.trace := by
  simp only [PhysicsJointPin.init, bind_ok_iff, Prod.exists] at h
  obtain ⟨ok, s1, h1, h⟩ := h
  obtain ⟨rfl, -⟩ := init_ok env s s1 this a b ok h1
  simp only [Bool.not_true, Bool.false_eq_true, if_false, bind_ok_iff] at h
  obtain ⟨_, _, cA, _, cB, _, h⟩ := h
  obtain ⟨jt, hjt, hj, hc, ht⟩ := single_true env s s1 s' this cA cB a b _ _ h1 h
  exact ⟨jt, _, hjt, hj, hc, ht⟩

theorem limit_init_true (env : Env F CpF) (s s' : State F CpF) (this : Nat)
    (a b : Option Nat) (anchr1 anchr2 : Vec2 F) (min max : F)
    (h : PhysicsJointLimit.init env s this a b anchr1 anchr2 min max = .ok (true, s')) :
    ∃ jt c, s.joints this = some jt ∧
      s'.joints this = some { jt with
        _bodyA := a, _bodyB := b, _cpConstraints := jt._cpConstraints ++ [s.nextHandle] } ∧
      s'.constraints s.nextHandle = some c ∧ c.kind = .slide (env.point2cpv anchr1) (env.point2cpv anchr2) (env.float2cpfloat min) (env.float2cpfloat max) ∧ s'.trace = s.trace := by
  simp only [PhysicsJointLimit.init, bind_ok_iff, Prod.exists] at h
  obtain ⟨ok, s1, h1, h⟩ := h
  obtain ⟨rfl, -⟩ := init_ok env s s1 this a b ok h1
  simp only [Bool.not_true, Bool.false_eq_true, if_false, bind_ok_iff] at h
  obtain ⟨_, _, cA, _, cB, _, h⟩ := h
  obtain ⟨jt, hjt, hj, hc, ht⟩ := single_true env s s1 s' this cA cB a b _ _ h1 h
  exact ⟨jt, _, hjt, hj, hc, rfl, ht⟩

theorem distance_init_true (env : Env F CpF) (s s' : State F CpF) (this : Nat)
    (a b : Option Nat) (anchr1 anchr2 : Vec2 F)
    (h : PhysicsJointDistance.init env s this a b anchr1 anchr2 = .ok (true, s')) :
    ∃ jt c, s.joints this = some jt ∧
      s'.joints this = some { jt with
        _bodyA := a, _bodyB := b, _cpConstraints := jt._cpConstraints ++ [s.nextHandle] } ∧
      s'.constraints s.nextHandle = some c ∧ s'.trace = s.trace := by
  simp only [PhysicsJointDistance.init, bind_ok_iff, Prod.exists] at h
  obtain ⟨ok, s1, h1, h⟩ := h
  obtain ⟨rfl, -⟩ := init_ok env s s1 this a b ok h1
  simp only [Bool.not_true, Bool.false_eq_true, if_false, bind_ok_iff] at h
  obtain ⟨_, _, cA, _, cB, _, h⟩ := h
  obtain ⟨jt, hjt, hj, hc, ht⟩ := single_true env s s1 s' this cA cB a b _ _ h1 h
  exact ⟨jt, _, hjt, hj, hc, ht⟩

theorem spring_init_true (env : Env F CpF) (s s' : State F CpF) (this : Nat)
    (a b : Option Nat) (anchr1 anchr2 : Vec2 F) (stiffness damping : F)
    (h : PhysicsJointSpring.init env s this a b anchr1 anchr2 stiffness damping = .ok (true, s')) :
    ∃ jt c, s.joints this = some jt ∧
      s'.joints this = some { jt with
        _bodyA := a, _bodyB := b, _cpConstraints := jt._cpConstraints ++ [s.nextHandle] } ∧
      s'.constraints s.nextHandle = some c ∧ s'.trace = s.trace := by
  simp only [PhysicsJointSpring.init, bind_ok_iff, Prod.exists] at h
  obtain ⟨ok, s1, h1, h⟩ := h
  obtain ⟨rfl, -⟩ := init_ok env s s1 this a b ok h1
  simp only [Bool.not_true, Bool.false_eq_true, if_false, bind_ok_iff] at h
  obtain ⟨_, _, cA, _, cB, _, _, _, _, _, _, _, h⟩ := h
  obtain ⟨jt, hjt, hj, hc, ht⟩ := single_true env s s1 s' this cA cB a b _ _ h1 h
  exact ⟨jt, _, hjt, hj, hc, ht⟩

theorem groove_init_true (env : Env F CpF) (s s' : State F CpF) (this : Nat)
    (a b : Option Nat) (grooveA grooveB anchr2 : Vec2 F)
    (h : PhysicsJointGroove.init env s this a b grooveA grooveB anchr2 = .ok (true, s')) :
    ∃ jt c, s.joints this = some jt ∧
      s'.joints this = some { jt with
        _bodyA := a, _bodyB := b, _cpConstraints := jt._cpConstraints ++ [s.nextHandle] } ∧
      s'.constraints s.nextHandle = some c ∧ s'.trace = s.trace := by
  simp only [PhysicsJointGroove.init, bind_ok_iff, Prod.exists] at h
  obtain ⟨ok, s1, h1, h⟩ := h
  obtain ⟨rfl, -⟩ := init_ok env s s1 this a b ok h1
  simp only [Bool.not_true, Bool.false_eq_true, if_false, bind_ok_iff] at h
  obtain ⟨_, _, cA, _, cB, _, h⟩ := h
  obtain ⟨jt, hjt, hj, hc, ht⟩ := single_true env s s1 s' this cA cB a b _ _ h1 h
  exact ⟨jt, _, hjt, hj, hc, ht⟩

theorem rotarySpring_init_true (env : Env F CpF) [Sub F] (s s' : State F CpF) (this : Nat)
    (a b : Option Nat) (stiffness damping : F)
    (h : PhysicsJointRotarySpring.init env s this a b stiffness damping = .ok (true, s')) :
    ∃ jt c, s.joints this = some jt ∧
      s'.joints this = some { jt with
        _bodyA := a, _bodyB := b, _cpConstraints := jt._cpConstraints ++ [s.nextHandle] } ∧
      s'.constraints s.nextHandle = some c ∧ s'.trace = s.trace := by
  simp only [PhysicsJointRotarySpring.init, bind_ok_iff, Prod.exists] at h
  obtain ⟨ok, s1, h1, h⟩ := h
  obtain ⟨rfl, -⟩ := init_ok env s s1 this a b ok h1
  simp only [Bool.not_true, Bool.false_eq_true, if_false, bind_ok_iff] at h
  obtain ⟨_, _, cA, _, cB, _, _, _, _, _, _, _, h⟩ := h
  obtain ⟨jt, hjt, hj, hc, ht⟩ := single_true env s s1 s' this cA cB a b _ _ h1 h
  exact ⟨jt, _, hjt, hj, hc, ht⟩

theorem rotaryLimit_init_true (env : Env F CpF) (s s' : State F CpF) (this : Nat)
    (a b : Option Nat) (min max : F)
    (h : PhysicsJointRotaryLimit.init env s this a b min max = .ok (true, s')) :
    ∃ jt c, s.joints this = some jt ∧
      s'.joints this = some { jt with
        _bodyA := a, _bodyB := b, _cpConstraints := jt._cpConstraints ++ [s.nextHandle] } ∧
      s'.constraints s.nextHandle = some c ∧ c.kind = .rotaryLimit (env.float2cpfloat min) (env.float2cpfloat max) ∧ s'.trace = s.trace := by
  simp only [PhysicsJointRotaryLimit.init, bind_ok_iff, Prod.exists] at h
  obtain ⟨ok, s1, h1, h⟩ := h
  obtain ⟨rfl, -⟩ := init_ok env s s1 this a b ok h1
  simp only [Bool.not_true, Bool.false_eq_true, if_false, bind_ok_iff] at h
  obtain ⟨_, _, cA, _, cB, _, h⟩ := h
  obtain ⟨jt, hjt, hj, hc, ht⟩ := single_true env s s1 s' this cA cB a b _ _ h1 h
  exact ⟨jt, _, hjt, hj, hc, rfl, ht⟩

theorem ratchet_init_true (env : Env F CpF) (s s' : State F CpF) (this : Nat)
    (a b : Option Nat) (phase ratchet : F)
    (h : PhysicsJointRatchet.init env s this a b phase ratchet = .ok (true, s')) :
    ∃ jt c, s.joints this = some jt ∧
      s'.joints this = some { jt with
        _bodyA := a, _bodyB := b, _cpConstraints := jt._cpConstraints ++ [s.nextHandle] } ∧
      s'.constraints s.nextHandle = some c ∧ s'.trace = s.trace := by
  simp only [PhysicsJointRatchet.init, bind_ok_iff, Prod.exists] at h
  obtain ⟨ok, s1, h1, h⟩ := h
  obtain ⟨rfl, -⟩ := init_ok env s s1 this a b ok h1
  simp only [Bool.not_true, Bool.false_eq_true, if_false, bind_ok_iff] at h
  obtain ⟨_, _, cA, _, cB, _, h⟩ := h
  obtain ⟨jt, hjt, hj, hc, ht⟩ := single_true env s s1 s' this cA cB a b _ _ h1 h
  exact ⟨jt, _, hjt, hj, hc, ht⟩

theorem gear_init_true (env : Env F CpF) (s s' : State F CpF) (this : Nat)
    (a b : Option Nat) (phase gearRatio : F)
    (h : PhysicsJointGear.init env s this a b phase gearRatio = .ok (true, s')) :
    ∃ jt c, s.joints this = some jt ∧
      s'.joints this = some { jt with
        _bodyA := a, _bodyB := b, _cpConstraints := jt._cpConstraints ++ [s.nextHandle] } ∧
      s'.constraints s.nextHandle = some c ∧ s'.trace = s.trace := by
  simp only [PhysicsJointGear.init, bind_ok_iff, Prod.exists] at h
  obtain ⟨ok, s1, h1, h⟩ := h
  obtain ⟨rfl, -⟩ := init_ok env s s1 this a b ok h1
  simp only [Bool.not_true, Bool.false_eq_true, if_false, bind_ok_iff] at h
  obtain ⟨_, _, cA, _, cB, _, h⟩ := h
  obtain ⟨jt, hjt, hj, hc, ht⟩ := single_true env s s1 s' this cA cB a b _ _ h1 h
  exact ⟨jt, _, hjt, hj, hc, ht⟩

theorem motor_init_true (env : Env F CpF) (s s' : State F CpF) (this : Nat)
    (a b : Option Nat) (rate : F)
    (h : PhysicsJointMotor.init env s this a b rate = .ok (true, s')) :
    ∃ jt c, s.joints this = some jt ∧
      s'.joints this = some { jt with
        _bodyA := a, _bodyB := b, _cpConstraints := jt._cpConstraints ++ [s.nextHandle] } ∧
      s'.constraints s.nextHandle = some c ∧ s'.trace = s.trace := by
  simp only [PhysicsJointMotor.init, bind_ok_iff, Prod.exists] at h
  obtain ⟨ok, s1, h1, h⟩ := h
  obtain ⟨rfl, -⟩ := init_ok env s s1 this a b ok h1
  simp only [Bool.not_true, Bool.false_eq_true, if_false, bind_ok_iff] at h
  obtain ⟨_, _, cA, _, cB, _, h⟩ := h
  obtain ⟨jt, hjt, hj, hc, ht⟩ := single_true env s s1 s' this cA cB a b _ _ h1 h
  exact ⟨jt, _, hjt, hj, hc, ht⟩

theorem derefNode_ok (s : State F CpF) (p : Option Nat) (r : Nat × Node F) :
    derefNode s p = .ok r ↔ p = some r.1 ∧ s.nodes r.1 = some r.2 := by
  unfold derefNode
  obtain ⟨i, nd⟩ := r
  cases p with
  | none => simp
  | some n =>
    by_cases hn : n = i
    · subst hn
      cases h : s.nodes n <;> simp [h]
    · cases h : s.nodes n <;> simp [h, hn]

theorem derefWorld_ok (s : State F CpF) (p : Option Nat) (r : Nat × PhysicsWorld) :
    derefWorld s p = .ok r ↔ p = some r.1 ∧ s.worlds r.1 = some r.2 := by
  unfold derefWorld
  obtain ⟨i, wd⟩ := r
  cases p with
  | none => simp
  | some w =>
    by_cases hw : w = i
    · subst hw
      cases h : s.worlds w <;> simp [h]
    · cases h : s.worlds w <;> simp [h, hw]

theorem setPosition_ok (s s' : State F CpF) (p : Option Nat) (pos : Vec2 F)
    (h : Node.setPosition s p pos = .ok s') : ∃ nodes, s' = { s with nodes := nodes } := by
  simp only [Node.setPosition, bind_ok_iff, pure_ok_iff, derefNode_ok, Prod.exists,
    State.setNode] at h
  obtain ⟨n, nd, _, rfl⟩ := h
  exact ⟨_, rfl⟩

theorem pushConstraint_ok (s s' : State F CpF) (this c : Nat)
    (h : pushConstraint s this c = .ok s') :
    ∃ jt, s.joints this = some jt ∧
      s' = { s with
        joints := Function.update s.joints this
          (some { jt with _cpConstraints := jt._cpConstraints ++ [c] }) } := by
  simp only [pushConstraint, bind_ok_iff, pure_ok_iff, derefJoint_ok, State.setJoint] at h
  obtain ⟨jt, hjt, rfl⟩ := h
  exact ⟨jt, hjt, rfl⟩

theorem setCollisionEnable_ok (s s' : State F CpF) (this : Nat) (e : Bool)
    (h : PhysicsJoint.setCollisionEnable s this e = .ok s') :
    ∃ jt, s.joints this = some jt ∧
      s' = { s with
        joints := Function.update s.joints this (some { jt with _collisionEnable := e }) } := by
  simp only [PhysicsJoint.setCollisionEnable, bind_ok_iff, derefJoint_ok] at h
  obtain ⟨jt, hjt, h⟩ := h
  refine ⟨jt, hjt, ?_⟩
  by_cases hc : jt._collisionEnable = e
  · simp only [hc, bne_self_eq_false, Bool.false_eq_true, if_false, pure_ok_iff] at h
    subst h
    subst hc
    have : Function.update s.joints this (some jt) = s.joints := by
      rw [← hjt]; exact Function.update_eq_self _ _
    simp [this]
  · have hne : (jt._collisionEnable != e) = true := by simpa using hc
    simp only [hne, if_true, pure_ok_iff, State.setJoint] at h
    exact h.symm

theorem cpConstraintNew_some (env : Env F CpF) (s s1 : State F CpF) (a b c : Nat)
    (K : ConstraintKind CpF) (h : cpConstraintNew env s a b K = (some c, s1)) :
    c = s.nextHandle ∧
      s1 = { s with
        constraints := Function.update s.constraints s.nextHandle
          (some { a := a, b := b, maxForce := env.maxForceDefault, kind := K })
        nextHandle := s.nextHandle + 1
        factoryOutcomes := s.factoryOutcomes.tail } := by
  rcases cpConstraintNew_cases env s a b K with ⟨rest, _, hn⟩ | ⟨_, hn⟩
  · rw [hn] at h; simp at h
  · rw [hn] at h
    simp only [Prod.mk.injEq, Option.some.injEq] at h
    exact ⟨h.1.symm, h.2.symm⟩

theorem fixed_init_true (env : Env F CpF) [Zero CpF] [One CpF] (s s' : State F CpF)
    (this : Nat) (a b : Option Nat) (anchr : Vec2 F)
    (h : PhysicsJointFixed.init env s this a b anchr = .ok (true, s')) :
    ∃ jt c1 c2, s.joints this = some jt ∧
      s'.joints this = some { jt with
        _bodyA := a, _bodyB := b, _collisionEnable := false,
        _cpConstraints := jt._cpConstraints ++ [s.nextHandle, s.nextHandle + 1] } ∧
      s'.constraints s.nextHandle = some c1 ∧ c1.kind = .pivot (env.point2cpv anchr) ∧
      s'.constraints (s.nextHandle + 1) = some c2 ∧ c2.kind = .gear 0 1 ∧
      s'.trace = s.trace := by
  simp only [PhysicsJointFixed.init, bind_ok_iff, Prod.exists] at h
  obtain ⟨ok, s1, h1, h⟩ := h
  obtain ⟨rfl, jt, bodies, hjt, rfl⟩ := init_ok env s s1 this a b ok h1
  simp only [Bool.not_true, Bool.false_eq_true, if_false, bind_ok_iff] at h
  obtain ⟨_, _, nodeA, _, s2, hs2, nodeB, _, s3, hs3, cA, _, cB, _, h⟩ := h
  obtain ⟨nodes2, rfl⟩ := setPosition_ok _ _ _ _ hs2
  obtain ⟨nodes3, rfl⟩ := setPosition_ok _ _ _ _ hs3
  rcases hp : cpConstraintNew env _ cA cB (ConstraintKind.pivot (env.point2cpv anchr))
    with ⟨_ | c, s4⟩
  · rw [hp] at h; simp [pure, Except.pure] at h
  rw [hp] at h
  obtain ⟨rfl, rfl⟩ := cpConstraintNew_some _ _ _ _ _ _ _ hp
  simp only [bind_ok_iff] at h
  obtain ⟨s5, hs5, cA2, _, cB2, _, h⟩ := h
  obtain ⟨jt5, hjt5, rfl⟩ := pushConstraint_ok _ _ _ _ hs5
  simp at hjt5
  subst hjt5
  rcases hg : cpConstraintNew env _ cA2 cB2 (ConstraintKind.gear 0 1) with ⟨_ | c, s6⟩
  · rw [hg] at h; simp [pure, Except.pure] at h
  rw [hg] at h
  obtain ⟨rfl, rfl⟩ := cpConstraintNew_some _ _ _ _ _ _ _ hg
  simp only [bind_ok_iff, pure_ok_iff, Prod.mk.injEq, true_and] at h
  obtain ⟨s7, hs7, s8, hs8, rfl⟩ := h
  obtain ⟨jt7, hjt7, rfl⟩ := pushConstraint_ok _ _ _ _ hs7
  simp at hjt7
  subst hjt7
  obtain ⟨jt8, hjt8, rfl⟩ := setCollisionEnable_ok _ _ _ _ hs8
  simp at hjt8
  subst hjt8
  refine ⟨jt, ⟨cA, cB, env.maxForceDefault, .pivot (env.point2cpv anchr)⟩,
    ⟨cA2, cB2, env.maxForceDefault, .gear 0 1⟩, hjt, ?_, ?_, rfl, ?_, rfl, rfl⟩ <;> simp

theorem returned_eq_some {α σ : Type} (r : Except Fault (α × σ)) (x : α) :
    returned r = some x ↔ ∃ s, r = .ok (x, s) := by
  unfold returned
  rcases r with e | ⟨y, s⟩ <;> simp

/-- What `construct` of a class with one constraint returns when it returns a joint. -/
theorem constructWith_single (s s' : State F CpF)
    (init : State F CpF → Nat → Except Fault (Bool × State F CpF)) (a b : Option Nat)
    (P : cpConstraint CpF → Prop) (j : Nat)
    (hinit : ∀ s0 s1 this, init s0 this = .ok (true, s1) →
      ∃ jt c, s0.joints this = some jt ∧
        s1.joints this = some { jt with
          _bodyA := a, _bodyB := b, _cpConstraints := jt._cpConstraints ++ [s0.nextHandle] } ∧
        s1.constraints s0.nextHandle = some c ∧ P c ∧ s1.trace = s0.trace)
    (h : constructWith s init = .ok (some j, s')) :
    j = s.nextJoint ∧ s'.trace = s.trace ∧
      s'.joints j = some { PhysicsJoint.ctor with
        _bodyA := a, _bodyB := b, _cpConstraints := [s.nextHandle] } ∧
      ∃ c, s'.constraints s.nextHandle = some c ∧ P c := by
  obtain ⟨rfl, h⟩ := constructWith_some s s' init j h
  obtain ⟨jt, c, hjt, hj, hc, hP, ht⟩ := hinit _ _ _ h
  simp at hjt
  subst hjt
  exact ⟨rfl, ht, by simpa [PhysicsJoint.ctor] using hj, c, hc, hP⟩

/-- What `PhysicsJointFixed::construct` returns when it returns a joint. -/
theorem fixed_construct_some (env : Env F CpF) [Zero CpF] [One CpF]
    (s s' : State F CpF) (a b : Option Nat) (anchr : Vec2 F) (j : Nat)
    (h : PhysicsJointFixed.construct env s a b anchr = .ok (some j, s')) :
    j = s.nextJoint ∧ s'.trace = s.trace ∧
      s'.joints j = some { PhysicsJoint.ctor with
        _bodyA := a, _bodyB := b, _collisionEnable := false,
        _cpConstraints := [s.nextHandle, s.nextHandle + 1] } ∧
      ∃ c1 c2, s'.constraints s.nextHandle = some c1 ∧ c1.kind = .pivot (env.point2cpv anchr) ∧
        s'.constraints (s.nextHandle + 1) = some c2 ∧ c2.kind = .gear 0 1 := by
  obtain ⟨rfl, h⟩ := constructWith_some s s' _ j h
  obtain ⟨jt, c1, c2, hjt, hj, hc1, hk1, hc2, hk2, ht⟩ :=
    fixed_init_true env _ _ _ _ _ _ h
  simp at hjt
  subst hjt
  exact ⟨rfl, ht, by simpa [PhysicsJoint.ctor] using hj, c1, c2, hc1, hk1, hc2, hk2⟩

/-- What the six-argument `PhysicsJointLimit::construct` returns when it returns a joint. -/
theorem limit_construct_some (env : Env F CpF)
    (s s' : State F CpF) (a b : Option Nat) (anchr1 anchr2 : Vec2 F) (min max : F) (j : Nat)
    (h : PhysicsJointLimit.construct env s a b anchr1 anchr2 min max = .ok (some j, s')) :
    j = s.nextJoint ∧ s'.trace = s.trace ∧
      s'.joints j = some { PhysicsJoint.ctor with
        _bodyA := a, _bodyB := b, _cpConstraints := [s.nextHandle] } ∧
      ∃ c, s'.constraints s.nextHandle = some c ∧
        c.kind = .slide (env.point2cpv anchr1) (env.point2cpv anchr2)
          (env.float2cpfloat min) (env.float2cpfloat max) :=
  constructWith_single s s' _ a b _ j
    (fun s0 s1 this h0 => limit_init_true env s0 s1 this a b anchr1 anchr2 min max h0) h

/-- What the four-argument `PhysicsJointRotaryLimit::construct` returns when it returns a
joint. -/
theorem rotaryLimit_construct_some (env : Env F CpF)
    (s s' : State F CpF) (a b : Option Nat) (min max : F) (j : Nat)
    (h : PhysicsJointRotaryLimit.construct env s a b min max = .ok (some j, s')) :
    j = s.nextJoint ∧ s'.trace = s.trace ∧
      s'.joints j = some { PhysicsJoint.ctor with
        _bodyA := a, _bodyB := b, _cpConstraints := [s.nextHandle] } ∧
      ∃ c, s'.constraints s.nextHandle = some c ∧
        c.kind = .rotaryLimit (env.float2cpfloat min) (env.float2cpfloat max) :=
  constructWith_single s s' _ a b _ j
    (fun s0 s1 this h0 => rotaryLimit_init_true env s0 s1 this a b min max h0) h

theorem limit4_ok (env : Env F CpF) [Zero F] (s s' : State F CpF) (a b : Option Nat)
    (anchr1 anchr2 : Vec2 F) (r : Option Nat)
    (h : PhysicsJointLimit.construct4 env s a b anchr1 anchr2 = .ok (r, s')) :
    ∃ ia ib ba bb, a = some ia ∧ b = some ib ∧ s.bodies ia = some ba ∧ s.bodies ib = some bb ∧
      PhysicsJointLimit.construct env s a b anchr1 anchr2 0
        (env.getDistance (env.local2World bb anchr1) (env.local2World ba anchr2)) =
        .ok (r, s') := by
  simp only [PhysicsJointLimit.construct4, local2World, bind_ok_iff, pure_ok_iff, derefBody_ok,
    Prod.exists] at h
  obtain ⟨p, ⟨ib, bb, ⟨rfl, hb⟩, rfl⟩, q, ⟨ia, ba, ⟨rfl, ha⟩, rfl⟩, h⟩ := h
  exact ⟨ia, ib, ba, bb, rfl, rfl, ha, hb, h⟩

/-- What any `construct` returns when it returns a joint: a fresh joint object that
holds the two bodies, is outside every world, is disabled, has collision enabled
unless it is a fixed joint, and owns one live constraint, or two for the fixed
joint. -/
theorem construct_some [Zero F] [Sub F] [Zero CpF] [One CpF] (env : Env F CpF)
    (s s' : State F CpF) (a b : Option Nat) (args : Args F) (j : Nat)
    (h : construct env s a b args = .ok (some j, s')) :
    j = s.nextJoint ∧ s'.trace = s.trace ∧
      s'.joints j = some { PhysicsJoint.ctor with
        _bodyA := a, _bodyB := b,
        _collisionEnable := decide (args.variant ≠ .fixed),
        _cpConstraints :=
          if args.variant = .fixed then [s.nextHandle, s.nextHandle + 1] else [s.nextHandle] } ∧
      (∃ c, s'.constraints s.nextHandle = some c) ∧
      (args.variant = .fixed → ∃ c, s'.constraints (s.nextHandle + 1) = some c) := by
  have single : ∀ (init : State F CpF → Nat → Except Fault (Bool × State F CpF)),
      (∀ s0 s1 this, init s0 this = .ok (true, s1) →
        ∃ jt c, s0.joints this = some jt ∧
          s1.joints this = some { jt with
            _bodyA := a, _bodyB := b, _cpConstraints := jt._cpConstraints ++ [s0.nextHandle] } ∧
          s1.constraints s0.nextHandle = some c ∧ s1.trace = s0.trace) →
      constructWith s init = .ok (some j, s') →
      j = s.nextJoint ∧ s'.trace = s.trace ∧
        s'.joints j = some { PhysicsJoint.ctor with
          _bodyA := a, _bodyB := b, _cpConstraints := [s.nextHandle] } ∧
        (∃ c, s'.constraints s.nextHandle = some c) := by
    intro init hinit hc
    obtain ⟨h1, h2, h3, c, h4, -⟩ := constructWith_single s s' init a b (fun _ => True) j
      (fun s0 s1 this h0 => by
        obtain ⟨jt, c, q1, q2, q3, q4⟩ := hinit s0 s1 this h0
        exact ⟨jt, c, q1, q2, q3, trivial, q4⟩) hc
    exact ⟨h1, h2, h3, c, h4⟩
  cases args with
  | fixed anchr =>
    obtain ⟨h1, h2, h3, c1, c2, h4, -, h5, -⟩ :=
      fixed_construct_some env s s' a b anchr j h
    exact ⟨h1, h2, by simpa [Args.variant] using h3, ⟨c1, h4⟩, fun _ => ⟨c2, h5⟩⟩
  | pin anchr =>
    obtain ⟨h1, h2, h3, h4⟩ := single _
      (fun s0 s1 this h0 => pin_init_true env s0 s1 this a b anchr h0) h
    exact ⟨h1, h2, by simpa [Args.variant] using h3, h4, by simp [Args.variant]⟩
  | limit anchr1 anchr2 min max =>
    obtain ⟨h1, h2, h3, c, h4, -⟩ := limit_construct_some env s s' a b _ _ _ _ j h
    exact ⟨h1, h2, by simpa [Args.variant] using h3, ⟨c, h4⟩, by simp [Args.variant]⟩
  | limit4 anchr1 anchr2 =>
    obtain ⟨ia, ib, ba, bb, -, -, -, -, h⟩ := limit4_ok env s s' a b anchr1 anchr2 _ h
    obtain ⟨h1, h2, h3, c, h4, -⟩ := limit_construct_some env s s' a b _ _ _ _ j h
    exact ⟨h1, h2, by simpa [Args.variant] using h3, ⟨c, h4⟩, by simp [Args.variant]⟩
  | distance anchr1 anchr2 =>
    obtain ⟨h1, h2, h3, h4⟩ := single _
      (fun s0 s1 this h0 => distance_init_true env s0 s1 this a b _ _ h0) h
    exact ⟨h1, h2, by simpa [Args.variant] using h3, h4, by simp [Args.variant]⟩
  | spring anchr1 anchr2 stiffness damping =>
    obtain ⟨h1, h2, h3, h4⟩ := single _
      (fun s0 s1 this h0 => spring_init_true env s0 s1 this a b _ _ _ _ h0) h
    exact ⟨h1, h2, by simpa [Args.variant] using h3, h4, by simp [Args.variant]⟩
  | groove grooveA grooveB anchr2 =>
    obtain ⟨h1, h2, h3, h4⟩ := single _
      (fun s0 s1 this h0 => groove_init_true env s0 s1 this a b _ _ _ h0) h
    exact ⟨h1, h2, by simpa [Args.variant] using h3, h4, by simp [Args.variant]⟩
  | rotarySpring stiffness damping =>
    obtain ⟨h1, h2, h3, h4⟩ := single _
      (fun s0 s1 this h0 => rotarySpring_init_true env s0 s1 this a b _ _ h0) h
    exact ⟨h1, h2, by simpa [Args.variant] using h3, h4, by simp [Args.variant]⟩
  | rotaryLimit min max =>
    obtain ⟨h1, h2, h3, c, h4, -⟩ := rotaryLimit_construct_some env s s' a b _ _ j h
    exact ⟨h1, h2, by simpa [Args.variant] using h3, ⟨c, h4⟩, by simp [Args.variant]⟩
  | rotaryLimit2 =>
    obtain ⟨h1, h2, h3, c, h4, -⟩ := rotaryLimit_construct_some env s s' a b _ _ j h
    exact ⟨h1, h2, by simpa [Args.variant] using h3, ⟨c, h4⟩, by simp [Args.variant]⟩
  | ratchet phase ratchet =>
    obtain ⟨h1, h2, h3, h4⟩ := single _
      (fun s0 s1 this h0 => ratchet_init_true env s0 s1 this a b _ _ h0) h
    exact ⟨h1, h2, by simpa [Args.variant] using h3, h4, by simp [Args.variant]⟩
  | gear phase ratchet =>
    obtain ⟨h1, h2, h3, h4⟩ := single _
      (fun s0 s1 this h0 => gear_init_true env s0 s1 this a b _ _ h0) h
    exact ⟨h1, h2, by simpa [Args.variant] using h3, h4, by simp [Args.variant]⟩
  | motor rate =>
    obtain ⟨h1, h2, h3, h4⟩ := single _
      (fun s0 s1 this h0 => motor_init_true env s0 s1 this a b _ h0) h
    exact ⟨h1, h2, by simpa [Args.variant] using h3, h4, by simp [Args.variant]⟩

/-! ## C1: null or identical bodies -/

theorem init_bad (env : Env F CpF) (s : State F CpF) (this : Nat) (a b : Option Nat)
    (h : env.assertsEnabled = true) (hbad : a = none ∨ b = none ∨ a = b) :
    PhysicsJoint.init env s this a b = .error .assertFailed := by
  unfold PhysicsJoint.init CCASSERT
  rcases hbad with rfl | rfl | rfl
  · simp [h, bind, Except.bind]
  · cases a <;> simp [h, bind, Except.bind]
  · cases a <;> simp [h, bind, Except.bind]

theorem constructWith_of_init_error (s : State F CpF)
    (init : State F CpF → Nat → Except Fault (Bool × State F CpF)) (e : Fault)
    (hinit : ∀ s0 this, init s0 this = .error e) :
    (∀ j, returned (constructWith s init) ≠ some (some j)) ∧
      (s.newOutcomes.head? ≠ some false → returned (constructWith s init) = none) := by
  rcases hn : s.newOutcomes with _ | ⟨_ | _, nrest⟩ <;>
    simp [constructWith, newJoint, hn, hinit, bind, Except.bind, pure, Except.pure, returned]

/-- C1 (amended). In a build that checks `CCASSERT`, for every joint class and
every argument list, when `a` is null, `b` is null or `a` and `b` are the same
body: `PhysicsJoint::init(a, b)` stops at the failed assertion, so it reports
neither success nor failure; `construct(a, b, ...)` never returns a joint; and
once the joint object is allocated `construct` does not return at all (it
returns null only when the allocation of the joint object itself fails). -/
theorem C1_bad_bodies_stop_at_the_assertion [Zero F] [Sub F] [Zero CpF] [One CpF]
    (env : Env F CpF) (s : State F CpF) (a b : Option Nat) (args : Args F)
    (hdbg : env.assertsEnabled = true) (hbad : a = none ∨ b = none ∨ a = b) :
    (∀ s0 this, PhysicsJoint.init env s0 this a b = .error .assertFailed) ∧
      (∀ j, returned (construct env s a b args) ≠ some (some j)) ∧
      (s.newOutcomes.head? ≠ some false → returned (construct env s a b args) = none) := by
  have hi : ∀ s0 this, PhysicsJoint.init env s0 this a b = .error .assertFailed :=
    fun s0 this => init_bad env s0 this a b hdbg hbad
  refine ⟨hi, ?_⟩
  cases args with
  | limit4 anchr1 anchr2 =>
    simp only [construct, PhysicsJointLimit.construct4]
    cases h1 : local2World env s b anchr1 with
    | error e => simp [bind, Except.bind, returned]
    | ok p =>
      cases h2 : local2World env s a anchr2 with
      | error e => simp [bind, Except.bind, returned]
      | ok q =>
        simp only [bind, Except.bind, PhysicsJointLimit.construct]
        apply constructWith_of_init_error s _ .assertFailed
        intro s0 this
        simp [PhysicsJointLimit.init, hi, bind, Except.bind]
  | _ =>
    simp only [construct, PhysicsJointFixed.construct, PhysicsJointPin.construct,
      PhysicsJointLimit.construct, PhysicsJointDistance.construct, PhysicsJointSpring.construct,
      PhysicsJointGroove.construct, PhysicsJointRotarySpring.construct,
      PhysicsJointRotaryLimit.construct, PhysicsJointRotaryLimit.construct2,
      PhysicsJointRatchet.construct, PhysicsJointGear.construct, PhysicsJointMotor.construct]
    apply constructWith_of_init_error s _ .assertFailed
    intro s0 this
    simp [PhysicsJointFixed.init, PhysicsJointPin.init, PhysicsJointLimit.init,
      PhysicsJointDistance.init, PhysicsJointSpring.init, PhysicsJointGroove.init,
      PhysicsJointRotarySpring.init, PhysicsJointRotaryLimit.init, PhysicsJointRatchet.init,
      PhysicsJointGear.init, PhysicsJointMotor.init, hi, bind, Except.bind]

/-- C1 (the claim fails as stated). In a build where `CCASSERT` expands to nothing,
`PhysicsJoint::init(a, a)` on the live body at address 0 reports success and
`PhysicsJointPin::construct(a, a, anchr)` returns the joint at address 0, not
null. In a build that checks `CCASSERT` the same call does not return null
either: it does not return. -/
theorem C1_same_body_yields_a_joint :
    returned (PhysicsJoint.init (demoEnv false) (newJoint demoState).2 0 (some 0) (some 0)) =
        some true ∧
      returned (construct (demoEnv false) demoState (some 0) (some 0) (.pin ⟨1, 2⟩)) =
        some (some 0) ∧
      returned (construct (demoEnv true) demoState (some 0) (some 0) (.pin ⟨1, 2⟩)) ≠
        some none := by
  decide

/-- C1 (amended), at the scene `demoState` with the same body twice. -/
theorem C1_bad_bodies_stop_at_the_assertion_witness :
    returned (construct (demoEnv true) demoState (some 0) (some 0) (.pin ⟨1, 2⟩)) = none :=
  (C1_bad_bodies_stop_at_the_assertion (demoEnv true) demoState (some 0) (some 0) (.pin ⟨1, 2⟩)
    rfl (Or.inr (Or.inr rfl))).2.2 (by decide)

/-! ## C2: a null handle from a factory -/

theorem validBody_elim (s : State F CpF) (v : Variant) (p : Option Nat)
    (h : validBody s v p = true) :
    ∃ i bd, p = some i ∧ s.bodies i = some bd ∧
      (v = .fixed → ∃ n nd, bd._node = some n ∧ s.nodes n = some nd) := by
  unfold validBody at h
  cases p with
  | none => simp at h
  | some i =>
    cases hb : s.bodies i with
    | none => simp [hb] at h
    | some bd =>
      refine ⟨i, bd, rfl, hb, ?_⟩
      intro hv
      subst hv
      simp only [hb] at h
      cases hn : bd._node with
      | none => simp [hn] at h
      | some n =>
        cases hnd : s.nodes n with
        | none => simp [hn, hnd] at h
        | some nd => exact ⟨n, nd, rfl, hnd⟩

set_option maxHeartbeats 1600000 in
/-- With live distinct bodies and no failing allocation, `construct` of a class
with one constraint returns a joint. -/
theorem construct_single_succeeds [Zero F] [Sub F] [Zero CpF] [One CpF]
    (env : Env F CpF) (s : State F CpF) (ia ib : Nat) (ba bb : PhysicsBody F) (args : Args F)
    (ha : s.bodies ia = some ba) (hb : s.bodies ib = some bb) (hab : ia ≠ ib)
    (hv : args.variant ≠ .fixed) (hn : s.newOutcomes.head? ≠ some false)
    (hf : s.factoryOutcomes.head? ≠ some false) :
    returned (construct env s (some ia) (some ib) args) = some (some s.nextJoint) := by
  have hba := Ne.symm hab
  rcases hn' : s.newOutcomes with _ | ⟨_ | _, nrest⟩ <;>
    rcases hf' : s.factoryOutcomes with _ | ⟨_ | _, frest⟩ <;> cases args <;>
    first
    | exact absurd rfl hv
    | (exfalso; simp [hn'] at hn; done)
    | (exfalso; simp [hf'] at hf; done)
    | simp [construct, PhysicsJointPin.construct, PhysicsJointPin.init,
        PhysicsJointLimit.construct, PhysicsJointLimit.init, PhysicsJointLimit.construct4,
        PhysicsJointDistance.construct, PhysicsJointDistance.init,
        PhysicsJointSpring.construct, PhysicsJointSpring.init,
        PhysicsJointGroove.construct, PhysicsJointGroove.init,
        PhysicsJointRotarySpring.construct, PhysicsJointRotarySpring.init,
        PhysicsJointRotaryLimit.construct, PhysicsJointRotaryLimit.init,
        PhysicsJointRotaryLimit.construct2,
        PhysicsJointRatchet.construct, PhysicsJointRatchet.init,
        PhysicsJointGear.construct, PhysicsJointGear.init,
        PhysicsJointMotor.construct, PhysicsJointMotor.init,
        constructWith, newJoint, hn', PhysicsJoint.init, CCASSERT, derefJoint, derefBody,
        State.setJoint, State.setBody, getCPBody, getRotation, local2World, finishInit,
        cpConstraintNew, hf', pushConstraint, returned,
        PhysicsJoint.ctor, bind, Except.bind, pure, Except.pure, ha, hb, hab, hba,
        Function.update_noteq hab, Function.update_noteq hba]

theorem update_none_of_none {α : Type} (f : Nat → Option α) (k j : Nat) (h : f j = none) :
    Function.update f k none j = none := by
  by_cases hjk : j = k
  · subst hjk
    exact Function.update_same _ _ _
  · rw [Function.update_noteq hjk]
    exact h

set_option maxHeartbeats 1600000 in
/-- With live distinct bodies, when the factory returns null, `construct` of a
class with one constraint returns null, leaves no joint object behind and
issues no call. -/
theorem construct_null_single [Zero F] [Sub F] [Zero CpF] [One CpF]
    (env : Env F CpF) (s : State F CpF) (ia ib : Nat) (ba bb : PhysicsBody F) (args : Args F)
    (ha : s.bodies ia = some ba) (hb : s.bodies ib = some bb) (hab : ia ≠ ib)
    (hv : args.variant ≠ .fixed) (rest : List Bool) (hf : s.factoryOutcomes = false :: rest) :
    ∃ s', construct env s (some ia) (some ib) args = .ok (none, s') ∧
      (∀ j, s.joints j = none → s'.joints j = none) ∧
      s'.constraints = s.constraints ∧ s'.trace = s.trace := by
  have hba := Ne.symm hab
  rcases hn : s.newOutcomes with _ | ⟨_ | _, nrest⟩ <;> cases args <;>
    first
    | exact absurd rfl hv
    | (simp [construct, PhysicsJointPin.construct, PhysicsJointPin.init,
        PhysicsJointLimit.construct, PhysicsJointLimit.init, PhysicsJointLimit.construct4,
        PhysicsJointDistance.construct, PhysicsJointDistance.init,
        PhysicsJointSpring.construct, PhysicsJointSpring.init,
        PhysicsJointGroove.construct, PhysicsJointGroove.init,
        PhysicsJointRotarySpring.construct, PhysicsJointRotarySpring.init,
        PhysicsJointRotaryLimit.construct, PhysicsJointRotaryLimit.init,
        PhysicsJointRotaryLimit.construct2,
        PhysicsJointRatchet.construct, PhysicsJointRatchet.init,
        PhysicsJointGear.construct, PhysicsJointGear.init,
        PhysicsJointMotor.construct, PhysicsJointMotor.init,
        constructWith, newJoint, hn, PhysicsJoint.init, CCASSERT, derefJoint, derefBody,
        State.setJoint, State.setBody, getCPBody, getRotation, local2World, finishInit,
        cpConstraintNew, hf, deleteJoint, PhysicsJoint.dtor, PhysicsJoint.setCollisionEnable,
        PhysicsJoint.ctor, bind, Except.bind, pure, Except.pure, ha, hb, hab, hba,
        Function.update_noteq hab, Function.update_noteq hba]
       all_goals first
         | done
         | exact fun k hk => update_none_of_none _ _ _ hk)

set_option maxHeartbeats 3200000 in
/-- With live distinct bodies that have live nodes, when a factory returns
null, `PhysicsJointFixed::construct` returns null and leaves no joint object and
no constraint behind; when it is the gear factory, the pivot already created is
freed, by the one call issued. -/
theorem construct_null_fixed [Zero CpF] [One CpF]
    (env : Env F CpF) (s : State F CpF) (ia ib na nb : Nat) (ba bb : PhysicsBody F)
    (nda ndb : Node F) (anchr : Vec2 F)
    (ha : s.bodies ia = some ba) (hb : s.bodies ib = some bb) (hab : ia ≠ ib)
    (hna : ba._node = some na) (hnb : bb._node = some nb)
    (hnda : s.nodes na = some nda) (hndb : s.nodes nb = some ndb)
    (hf : s.factoryOutcomes.head? = some false ∨ s.factoryOutcomes.get? 1 = some false) :
    ∃ s', PhysicsJointFixed.construct env s (some ia) (some ib) anchr = .ok (none, s') ∧
      (∀ j, s.joints j = none → s'.joints j = none) ∧
      (∀ c, s.constraints c = none → s'.constraints c = none) ∧
      (∀ rest, s.newOutcomes.head? ≠ some false → s.factoryOutcomes = true :: false :: rest →
        s'.trace = s.trace ++ [Event.cpConstraintFree s.nextHandle] ∧
          s'.constraints s.nextHandle = none) := by
  have hba := Ne.symm hab
  have hnn : ∃ ndb2, (Function.update s.nodes na
      (some { position := anchr } : Option (Node F))) nb = some ndb2 := by
    by_cases e : nb = na
    · subst e
      exact ⟨_, Function.update_same _ _ _⟩
    · exact ⟨ndb, by rw [Function.update_noteq e]; exact hndb⟩
  obtain ⟨ndb2, hndb2⟩ := hnn
  rcases hn : s.newOutcomes with _ | ⟨_ | _, nrest⟩ <;>
    rcases hf2 : s.factoryOutcomes with _ | ⟨_ | _, _ | ⟨_ | _, frest⟩⟩ <;>
    first
    | (exfalso; simp [hf2] at hf; done)
    | (simp [PhysicsJointFixed.construct, PhysicsJointFixed.init,
        constructWith, newJoint, hn, PhysicsJoint.init, CCASSERT, derefJoint, derefBody,
        derefNode, PhysicsJoint.getBodyNode, Node.setPosition, State.setNode,
        State.setJoint, State.setBody, getCPBody, pushConstraint,
        cpConstraintNew, hf2, deleteJoint, PhysicsJoint.dtor, PhysicsJoint.setCollisionEnable,
        cpConstraintFree,
        PhysicsJoint.ctor, bind, Except.bind, pure, Except.pure, ha, hb, hab, hba,
        hna, hnb, hnda, hndb, hndb2,
        Function.update_noteq hab, Function.update_noteq hba]
       all_goals first
         | done
         | exact fun k hk => update_none_of_none _ _ _ hk
         | exact ⟨fun k hk => update_none_of_none _ _ _ hk,
             fun k hk => update_none_of_none _ _ _ hk⟩)

/-- C2. For every joint class and argument list and every pair of valid distinct
bodies, when one of the factory calls that `init` makes returns a null handle,
`construct` returns null: no joint is returned, no joint object is left alive and
no constraint is left alive. For the fixed joint, when the pivot is created and
the gear factory returns null, the one call issued is the free of the pivot
handle, which is then no longer a live constraint. -/
theorem C2_null_handle_gives_null [Zero F] [Sub F] [Zero CpF] [One CpF]
    (env : Env F CpF) (s : State F CpF) (a b : Option Nat) (args : Args F)
    (ha : validBody s args.variant a = true) (hb : validBody s args.variant b = true)
    (hab : a ≠ b)
    (hnull : ∃ i, i < args.variant.factoryCalls ∧ s.factoryOutcomes.get? i = some false) :
    ∃ s', construct env s a b args = .ok (none, s') ∧
      (∀ j, s.joints j = none → s'.joints j = none) ∧
      (∀ c, s.constraints c = none → s'.constraints c = none) ∧
      (∀ anchr rest, args = .fixed anchr → s.newOutcomes.head? ≠ some false →
        s.factoryOutcomes = true :: false :: rest →
        s'.trace = s.trace ++ [Event.cpConstraintFree s.nextHandle] ∧
          s'.constraints s.nextHandle = none) := by
  obtain ⟨ia, ba, rfl, hba, hna⟩ := validBody_elim s _ _ ha
  obtain ⟨ib, bb, rfl, hbb, hnb⟩ := validBody_elim s _ _ hb
  have hne : ia ≠ ib := fun e => hab (by rw [e])
  obtain ⟨i, hi, hget⟩ := hnull
  by_cases hv : args.variant = .fixed
  · obtain ⟨na, nda, hna1, hna2⟩ := hna hv
    obtain ⟨nb, ndb, hnb1, hnb2⟩ := hnb hv
    cases args with
    | fixed anchr =>
      have hf : s.factoryOutcomes.head? = some false ∨ s.factoryOutcomes.get? 1 = some false := by
        have hi2 : i < 2 := by simpa [Args.variant, Variant.factoryCalls] using hi
        rcases Nat.lt_succ_iff_lt_or_eq.1 hi2 with h0 | h1
        · have : i = 0 := by omega
          subst this
          left
          cases hl : s.factoryOutcomes with
          | nil => simp [hl] at hget
          | cons x r => simpa [hl] using hget
        · subst h1
          exact Or.inr hget
      obtain ⟨s', h1, h2, h3, h4⟩ := construct_null_fixed env s ia ib na nb ba bb nda ndb anchr
        hba hbb hne hna1 hnb1 hna2 hnb2 hf
      refine ⟨s', h1, h2, h3, ?_⟩
      intro anchr2 rest _ hn hfo
      exact h4 rest hn hfo
    | _ => simp [Args.variant] at hv
  · have hi1 : i = 0 := by
      have : args.variant.factoryCalls = 1 := by
        cases hvv : args.variant <;> simp_all [Variant.factoryCalls]
      omega
    subst hi1
    obtain ⟨rest, hrest⟩ : ∃ rest, s.factoryOutcomes = false :: rest := by
      cases hl : s.factoryOutcomes with
      | nil => simp [hl] at hget
      | cons x r =>
        have : x = false := by simpa [hl] using hget
        exact ⟨r, by rw [this]⟩
    obtain ⟨s', h1, h2, h3, h4⟩ :=
      construct_null_single env s ia ib ba bb args hba hbb hne hv rest hrest
    refine ⟨s', h1, h2, fun c hc => by rw [h3]; exact hc, ?_⟩
    rintro anchr rest2 rfl
    exact absurd rfl hv

/-- C2, at the scene `demoState` when the pivot is created and the gear factory
returns null. -/
theorem C2_null_handle_gives_null_witness :
    ∃ s', construct (demoEnv true) { demoState with factoryOutcomes := [true, false] }
        (some 0) (some 1) (.fixed ⟨1, 2⟩) = .ok (none, s') ∧
      s'.trace = [Event.cpConstraintFree 0] ∧ s'.constraints 0 = none := by
  obtain ⟨s', h1, -, -, h4⟩ := C2_null_handle_gives_null (demoEnv true)
    { demoState with factoryOutcomes := [true, false] } (some 0) (some 1) (.fixed ⟨1, 2⟩)
    (by decide) (by decide) (by decide) ⟨1, by decide, by decide⟩
  obtain ⟨q1, q2⟩ := h4 ⟨1, 2⟩ [] rfl (by decide) rfl
  exact ⟨s', h1, by simpa [demoState] using q1, by simpa [demoState] using q2⟩

/-! ## C3: the number of constraints of a constructed joint -/

/-- C3. Whenever `construct` returns a joint, for every class and argument list,
the joint owns exactly two constraint handles if it is a fixed joint and exactly
one otherwise, so never none; every owned handle is a live constraint; and the
two handles of a fixed joint are a pivot at the anchor followed by a gear with
phase 0 and ratio 1. -/
theorem C3_constraint_count [Zero F] [Sub F] [Zero CpF] [One CpF] (env : Env F CpF)
    (s : State F CpF) (a b : Option Nat) (args : Args F) (j : Nat)
    (h : returned (construct env s a b args) = some (some j)) :
    ∃ s' jt, construct env s a b args = .ok (some j, s') ∧ s'.joints j = some jt ∧
      jt._cpConstraints.length = (if args.variant = .fixed then 2 else 1) ∧
      jt._cpConstraints ≠ [] ∧
      (∀ c ∈ jt._cpConstraints, (s'.constraints c).isSome = true) ∧
      (∀ anchr, args = .fixed anchr →
        ∃ h1 h2 c1 c2, jt._cpConstraints = [h1, h2] ∧
          s'.constraints h1 = some c1 ∧ c1.kind = .pivot (env.point2cpv anchr) ∧
          s'.constraints h2 = some c2 ∧ c2.kind = .gear 0 1) := by
  obtain ⟨s', hs'⟩ := (returned_eq_some _ _).1 h
  obtain ⟨-, -, hj, ⟨c1, hc1⟩, hc2⟩ := construct_some env s s' a b args j hs'
  refine ⟨s', _, hs', hj, ?_, ?_, ?_, ?_⟩
  · by_cases hv : args.variant = .fixed <;> simp [hv]
  · by_cases hv : args.variant = .fixed <;> simp [hv]
  · by_cases hv : args.variant = .fixed
    · obtain ⟨c2, hc2⟩ := hc2 hv
      simp [hv, hc1, hc2]
    · simp [hv, hc1]
  · rintro anchr rfl
    obtain ⟨-, -, hj2, k1, k2, q1, q2, q3, q4⟩ := fixed_construct_some env s s' a b anchr j hs'
    exact ⟨_, _, k1, k2, by simp [Args.variant], q1, q2, q3, q4⟩

/-- C3, at the scene `demoState`: a fixed joint between the bodies 0 and 1. -/
theorem C3_constraint_count_witness :
    ∃ s' jt, construct (demoEnv true) demoState (some 0) (some 1) (.fixed ⟨1, 2⟩) =
        .ok (some 0, s') ∧ s'.joints 0 = some jt ∧
      jt._cpConstraints.length = 2 ∧ jt._cpConstraints ≠ [] := by
  obtain ⟨s', jt, h1, h2, h3, h4, -⟩ := C3_constraint_count (demoEnv true) demoState
    (some 0) (some 1) (.fixed ⟨1, 2⟩) 0 (by decide)
  exact ⟨s', jt, h1, h2, by simpa [Args.variant] using h3, h4⟩

/-! ## C4: the force cap -/

/-- The loop of `setMaxForce` over live constraints returns, writes the converted
force into every constraint of the list, and leaves the joints alone. -/
theorem setMaxForce_loop (env : Env F CpF) (force : F) (l : List Nat) :
    ∀ s : State F CpF, (∀ c ∈ l, (s.constraints c).isSome = true) →
      ∃ s2, l.foldlM (setMaxForceOne env force) s = .ok s2 ∧ s2.joints = s.joints ∧
        (∀ c ∈ l, ∃ v, s2.constraints c = some v ∧ v.maxForce = env.float2cpfloat force) ∧
        (∀ c, c ∉ l → s2.constraints c = s.constraints c) := by
  induction l with
  | nil => intro s _; exact ⟨s, rfl, rfl, by simp, by simp⟩
  | cons c0 l ih =>
    intro s hl
    obtain ⟨v0, hv0⟩ := Option.isSome_iff_exists.1 (hl c0 (by simp))
    have hstep : setMaxForceOne env force s c0 =
        .ok (s.setConstraint c0 { v0 with maxForce := env.float2cpfloat force }) := by
      simp [setMaxForceOne, derefConstraint, hv0, bind, Except.bind, pure, Except.pure]
    obtain ⟨s2, h2, hj2, hin, hout⟩ :=
      ih (s.setConstraint c0 { v0 with maxForce := env.float2cpfloat force }) (by
        intro c hc
        by_cases hcc : c = c0
        · simp [State.setConstraint, hcc]
        · simpa [State.setConstraint, Function.update_noteq hcc] using hl c (by simp [hc]))
    refine ⟨s2, ?_, ?_, ?_, ?_⟩
    · simp [List.foldlM_cons, hstep, h2, bind, Except.bind]
    · simpa [State.setConstraint] using hj2
    · intro c hc
      by_cases hcl : c ∈ l
      · exact hin c hcl
      · have hcc : c = c0 := by simpa [hcl] using hc
        subst hcc
        exact ⟨{ v0 with maxForce := env.float2cpfloat force },
          by rw [hout c hcl]; simp [State.setConstraint], rfl⟩
    · intro c hc
      have hcc : c ≠ c0 := fun e => hc (by simp [e])
      have hcl : c ∉ l := fun e => hc (by simp [e])
      rw [hout c hcl]
      simp [State.setConstraint, Function.update_noteq hcc]

/-- C4. For every joint that `construct` returns, of any class, and every force
`f`: `setMaxForce(f)` returns, afterwards every constraint the joint owns has
`maxForce` equal to the converted `f` (both constraints of a fixed joint
included), and `getMaxForce()` then returns `f`, the conversion back from
`cpFloat` being a left inverse of `float2cpfloat`. -/
theorem C4_maxForce_roundtrip [Zero F] [Sub F] [Zero CpF] [One CpF] (env : Env F CpF)
    (s : State F CpF) (a b : Option Nat) (args : Args F) (j : Nat) (f : F)
    (h : returned (construct env s a b args) = some (some j))
    (hconv : ∀ x, env.cpfloat2float (env.float2cpfloat x) = x) :
    ∃ s1 s2 jt, construct env s a b args = .ok (some j, s1) ∧
      PhysicsJoint.setMaxForce env s1 j f = .ok s2 ∧
      s1.joints j = some jt ∧ s2.joints j = some jt ∧
      (∀ c ∈ jt._cpConstraints,
        ∃ v, s2.constraints c = some v ∧ v.maxForce = env.float2cpfloat f) ∧
      PhysicsJoint.getMaxForce env s2 j = .ok f := by
  obtain ⟨s1, hs1⟩ := (returned_eq_some _ _).1 h
  obtain ⟨-, -, hj, ⟨c1, hc1⟩, hc2⟩ := construct_some env s s1 a b args j hs1
  have hlive : ∀ c ∈ (if args.variant = .fixed then [s.nextHandle, s.nextHandle + 1]
      else [s.nextHandle]), (s1.constraints c).isSome = true := by
    by_cases hv : args.variant = .fixed
    · obtain ⟨c2, hc2⟩ := hc2 hv
      simp [hv, hc1, hc2]
    · simp [hv, hc1]
  obtain ⟨s2, h2, hj2, hin, -⟩ := setMaxForce_loop env f _ s1 hlive
  refine ⟨s1, s2, _, hs1, ?_, hj, by rw [hj2]; exact hj, hin, ?_⟩
  · simp [PhysicsJoint.setMaxForce, derefJoint, hj, bind, Except.bind, h2]
  · obtain ⟨v, hv1, hv2⟩ := hin s.nextHandle (by
      by_cases hv : args.variant = .fixed <;> simp [hv])
    have hfront : front s2 j = .ok s.nextHandle := by
      by_cases hv : args.variant = .fixed <;>
        simp [front, derefJoint, hj2, hj, hv, bind, Except.bind]
    simp [PhysicsJoint.getMaxForce, hfront, derefConstraint, hv1, hv2, hconv, bind, Except.bind,
      pure, Except.pure]

/-- C4, at the scene `demoState`: a fixed joint between the bodies 0 and 1 and
the force 7. -/
theorem C4_maxForce_roundtrip_witness :
    ∃ s1 s2 jt, construct (demoEnv true) demoState (some 0) (some 1) (.fixed ⟨1, 2⟩) =
        .ok (some 0, s1) ∧
      PhysicsJoint.setMaxForce (demoEnv true) s1 0 7 = .ok s2 ∧
      s1.joints 0 = some jt ∧ s2.joints 0 = some jt ∧
      (∀ c ∈ jt._cpConstraints,
        ∃ v, s2.constraints c = some v ∧ v.maxForce = (demoEnv true).float2cpfloat 7) ∧
      PhysicsJoint.getMaxForce (demoEnv true) s2 0 = .ok 7 :=
  C4_maxForce_roundtrip (demoEnv true) demoState (some 0) (some 1) (.fixed ⟨1, 2⟩) 0 7
    (by decide) (fun x => Int.mul_ediv_cancel x (by decide))


/-! ## C5: the destructor -/

theorem setCollisionEnable_eq (s : State F CpF) (k : Nat) (jt : PhysicsJoint) (e : Bool)
    (hk : s.joints k = some jt) :
    PhysicsJoint.setCollisionEnable s k e =
      .ok (if jt._collisionEnable = e then s
        else s.setJoint k { jt with _collisionEnable := e }) := by
  by_cases hc : jt._collisionEnable = e <;>
    simp [PhysicsJoint.setCollisionEnable, derefJoint, hk, hc, bind, Except.bind, pure,
      Except.pure]


/-- The loop of the destructor: one free call per handle, in order, and nothing
else. -/
theorem free_loop (l : List Nat) :
    ∀ s : State F CpF,
      (l.foldl cpConstraintFree s).trace = s.trace ++ l.map Event.cpConstraintFree ∧
      (l.foldl cpConstraintFree s).joints = s.joints ∧
      (l.foldl cpConstraintFree s).bodies = s.bodies ∧
      (l.foldl cpConstraintFree s).worlds = s.worlds ∧
      (l.foldl cpConstraintFree s).nodes = s.nodes ∧
      (∀ c ∈ l, (l.foldl cpConstraintFree s).constraints c = none) ∧
      (∀ c, s.constraints c = none → (l.foldl cpConstraintFree s).constraints c = none) := by
  induction l with
  | nil => intro s; simp
  | cons c0 l ih =>
    intro s
    obtain ⟨h1, h2, h3, h4, h5, h6, h7⟩ := ih (cpConstraintFree s c0)
    refine ⟨?_, ?_, ?_, ?_, ?_, ?_, ?_⟩
    · rw [List.foldl_cons, h1]; simp [cpConstraintFree]
    · rw [List.foldl_cons, h2]; simp [cpConstraintFree]
    · rw [List.foldl_cons, h3]; simp [cpConstraintFree]
    · rw [List.foldl_cons, h4]; simp [cpConstraintFree]
    · rw [List.foldl_cons, h5]; simp [cpConstraintFree]
    · intro c hc
      by_cases hcl : c ∈ l
      · exact h6 c hcl
      · have hcc : c = c0 := by simpa [hcl] using hc
        subst hcc
        exact h7 c (by simp [cpConstraintFree])
    · intro c hc
      apply h7
      by_cases hcc : c = c0
      · simp [cpConstraintFree, hcc]
      · simp [cpConstraintFree, Function.update_noteq hcc, hc]

/-- The destructor on a live joint: the flag is set first, on a state without
any new call in the trace, and the frees follow. -/
theorem dtor_spec (s : State F CpF) (j : Nat) (jt : PhysicsJoint) (hj : s.joints j = some jt) :
    ∃ s1, PhysicsJoint.setCollisionEnable s j true = .ok s1 ∧
      s1.joints = Function.update s.joints j (some { jt with _collisionEnable := true }) ∧
      s1.trace = s.trace ∧ s1.constraints = s.constraints ∧ s1.bodies = s.bodies ∧
      s1.worlds = s.worlds ∧ s1.nodes = s.nodes ∧
      PhysicsJoint.dtor s j = .ok (jt._cpConstraints.foldl cpConstraintFree s1) := by
  rw [setCollisionEnable_eq s j jt true hj]
  by_cases hc : jt._collisionEnable = true
  · refine ⟨s, by simp [hc], ?_, rfl, rfl, rfl, rfl, rfl, ?_⟩
    · have := Function.update_eq_self j s.joints
      rw [hj] at this
      rw [← hc]
      exact this.symm
    · simp [PhysicsJoint.dtor, setCollisionEnable_eq s j jt true hj, hc, derefJoint, hj, bind,
        Except.bind, pure, Except.pure]
  · refine ⟨s.setJoint j { jt with _collisionEnable := true }, by simp [hc], rfl, rfl, rfl, rfl,
      rfl, rfl, ?_⟩
    simp [PhysicsJoint.dtor, setCollisionEnable_eq s j jt true hj, hc, derefJoint,
      State.setJoint, bind, Except.bind, pure, Except.pure]

/-- C5. For every live joint, whatever its `_collisionEnable`: the destructor
returns; it first sets `_collisionEnable` to true, before any free call; it then
issues one `cpConstraintFree` for each handle of `_cpConstraints`, in the order
of the sequence and nothing else, so as many free calls as the sequence is long;
and afterwards none of the handles is a live constraint. -/
theorem C5_destructor (s : State F CpF) (j : Nat) (jt : PhysicsJoint)
    (hj : s.joints j = some jt) :
    ∃ s1 s2, PhysicsJoint.setCollisionEnable s j true = .ok s1 ∧
      s1.joints j = some { jt with _collisionEnable := true } ∧ s1.trace = s.trace ∧
      PhysicsJoint.dtor s j = .ok s2 ∧
      s2 = jt._cpConstraints.foldl cpConstraintFree s1 ∧
      s2.joints j = some { jt with _collisionEnable := true } ∧
      s2.trace = s.trace ++ jt._cpConstraints.map Event.cpConstraintFree ∧
      s2.trace.length = s.trace.length + jt._cpConstraints.length ∧
      (∀ c ∈ jt._cpConstraints, s2.constraints c = none) := by
  obtain ⟨s1, h1, hj1, ht1, -, -, -, -, hd⟩ := dtor_spec s j jt hj
  obtain ⟨f1, f2, -, -, -, f6, -⟩ := free_loop jt._cpConstraints s1
  refine ⟨s1, _, h1, by simp [hj1], ht1, hd, rfl, by simp [f2, hj1], by rw [f1, ht1], ?_, f6⟩
  rw [f1, ht1]
  simp

/-- C5, at the joint of `demoDetached`: collision disabled, handles 4 and 9. -/
theorem C5_destructor_witness :
    ∃ s1 s2, PhysicsJoint.setCollisionEnable demoDetached 0 true = .ok s1 ∧
      (s1.joints 0).map (fun jt => jt._collisionEnable) = some true ∧
      PhysicsJoint.dtor demoDetached 0 = .ok s2 ∧
      s2.trace = [Event.cpConstraintFree 4, Event.cpConstraintFree 9] := by
  obtain ⟨s1, s2, h1, h2, -, h4, -, -, h7, -⟩ := C5_destructor demoDetached 0
    { PhysicsJoint.ctor with
      _bodyA := some 0, _bodyB := some 1, _collisionEnable := false, _cpConstraints := [4, 9] }
    (by simp [demoDetached, State.setJoint])
  exact ⟨s1, s2, h1, by simp [h2], h4,
    by simpa [demoDetached, State.setJoint, demoState] using h7⟩

/-! ## C6: `destroy` -/

theorem bodyRemoveJoint_eq (s : State F CpF) (i j : Nat) (bd : PhysicsBody F)
    (hb : s.bodies i = some bd) :
    PhysicsBody.removeJoint s (some i) j =
      .ok ((s.setBody i { bd with _joints := bd._joints.filter (fun k => k != j) }).emit
        (.bodyRemoveJoint i j)) := by
  simp [PhysicsBody.removeJoint, derefBody, hb, bind, Except.bind, pure, Except.pure]

/-- The statement `delete joint` on a live joint. -/
theorem deleteJoint_spec (s : State F CpF) (j : Nat) (jt : PhysicsJoint)
    (hj : s.joints j = some jt) :
    ∃ s', deleteJoint s j = .ok s' ∧ s'.joints = Function.update s.joints j none ∧
      s'.trace = s.trace ++ jt._cpConstraints.map Event.cpConstraintFree ∧
      s'.worlds = s.worlds ∧ s'.bodies = s.bodies ∧ s'.nodes = s.nodes ∧
      (∀ c ∈ jt._cpConstraints, s'.constraints c = none) ∧
      (∀ c, s.constraints c = none → s'.constraints c = none) := by
  obtain ⟨s1, -, hj1, ht1, hc1, hb1, hw1, hn1, hd⟩ := dtor_spec s j jt hj
  obtain ⟨f1, f2, f3, f4, f5, f6, f7⟩ := free_loop jt._cpConstraints s1
  refine ⟨{ jt._cpConstraints.foldl cpConstraintFree s1 with
      joints := Function.update (jt._cpConstraints.foldl cpConstraintFree s1).joints j none },
    by simp [deleteJoint, hd, bind, Except.bind, pure, Except.pure], ?_, ?_, ?_, ?_, ?_, ?_, ?_⟩
  · simp [f2, hj1]
  · simp [f1, ht1]
  · simp [f4, hw1]
  · simp [f3, hb1]
  · simp [f5, hn1]
  · exact f6
  · intro c hc
    exact f7 c (by rw [hc1]; exact hc)

/-- C6. `destroy(nullptr)` does nothing. For a live joint in a live world,
`destroy` issues exactly `world->removeJoint(joint, true)` and changes nothing
else: it detaches no body and deletes nothing itself. For a live joint whose
`_world` is null, with each of its body pointers null or alive, `destroy` returns,
touches no world and issues no world call: it calls `removeJoint(joint)` on
`_bodyA` when non-null, then on `_bodyB` when non-null, then deletes the joint,
which frees each owned constraint once, in order. -/
theorem C6_destroy (s : State F CpF) (j : Nat) (jt : PhysicsJoint)
    (hj : s.joints j = some jt) :
    PhysicsJoint.destroy s none = .ok s ∧
      (∀ w, jt._world = some w → (s.worlds w).isSome = true →
        PhysicsJoint.destroy s (some j) = .ok (s.emit (.removeJoint w j true))) ∧
      (jt._world = none →
        (∀ i, jt._bodyA = some i → (s.bodies i).isSome = true) →
        (∀ i, jt._bodyB = some i → (s.bodies i).isSome = true) →
        ∃ s', PhysicsJoint.destroy s (some j) = .ok s' ∧
          s'.worlds = s.worlds ∧
          s'.trace = s.trace ++ jt._bodyA.toList.map (fun i => Event.bodyRemoveJoint i j) ++
            jt._bodyB.toList.map (fun i => Event.bodyRemoveJoint i j) ++
            jt._cpConstraints.map Event.cpConstraintFree ∧
          s'.joints = Function.update s.joints j none ∧
          (∀ c ∈ jt._cpConstraints, s'.constraints c = none) ∧
          (∀ i, jt._bodyA = some i ∨ jt._bodyB = some i →
            ∃ bd, s'.bodies i = some bd ∧ j ∉ bd._joints)) := by
  refine ⟨rfl, ?_, ?_⟩
  · intro w hw hlive
    obtain ⟨wd, hwd⟩ := Option.isSome_iff_exists.1 hlive
    simp [PhysicsJoint.destroy, derefJoint, hj, hw, PhysicsWorld.removeJoint, derefWorld, hwd,
      bind, Except.bind, pure, Except.pure]
  · intro hw hA hB
    -- the step on `_bodyA`
    have stepA : ∃ sA, (if jt._bodyA != none then PhysicsBody.removeJoint s jt._bodyA j
          else pure s) = .ok sA ∧ sA.joints = s.joints ∧ sA.worlds = s.worlds ∧
        sA.constraints = s.constraints ∧
        sA.trace = s.trace ++ jt._bodyA.toList.map (fun i => Event.bodyRemoveJoint i j) ∧
        (∀ i, (s.bodies i).isSome = true → (sA.bodies i).isSome = true) ∧
        (∀ i, jt._bodyA = some i → ∃ bd, sA.bodies i = some bd ∧ j ∉ bd._joints) := by
      cases hba : jt._bodyA with
      | none => exact ⟨s, by simp [pure, Except.pure], rfl, rfl, rfl, by simp, fun _ h => h,
          by simp⟩
      | some ia =>
        obtain ⟨bd, hbd⟩ := Option.isSome_iff_exists.1 (hA ia hba)
        refine ⟨(s.setBody ia { bd with _joints := bd._joints.filter (fun k => k != j) }).emit
            (.bodyRemoveJoint ia j),
          by simp [bodyRemoveJoint_eq s ia j bd hbd], rfl, rfl, rfl,
          by simp [State.emit, State.setBody], ?_, ?_⟩
        · intro i hi
          by_cases hii : i = ia
          · simp [State.emit, State.setBody, hii]
          · simpa [State.emit, State.setBody, Function.update_noteq hii] using hi
        · intro i hi
          have : i = ia := by simpa using hi.symm
          subst this
          exact ⟨{ bd with _joints := bd._joints.filter (fun k => k != j) },
            by simp [State.emit, State.setBody], by simp [List.mem_filter]⟩
    obtain ⟨sA, hsA, hjA, hwA, hcA, htA, hliveA, hdetA⟩ := stepA
    have hjA' : sA.joints j = some jt := by rw [hjA]; exact hj
    -- the step on `_bodyB`
    have stepB : ∃ sB, (if jt._bodyB != none then PhysicsBody.removeJoint sA jt._bodyB j
          else pure sA) = .ok sB ∧ sB.joints = sA.joints ∧ sB.worlds = sA.worlds ∧
        sB.constraints = sA.constraints ∧
        sB.trace = sA.trace ++ jt._bodyB.toList.map (fun i => Event.bodyRemoveJoint i j) ∧
        (∀ i, (∃ bd, sA.bodies i = some bd ∧ j ∉ bd._joints) →
          ∃ bd, sB.bodies i = some bd ∧ j ∉ bd._joints) ∧
        (∀ i, jt._bodyB = some i → ∃ bd, sB.bodies i = some bd ∧ j ∉ bd._joints) := by
      cases hbb : jt._bodyB with
      | none => exact ⟨sA, by simp [pure, Except.pure], rfl, rfl, rfl, by simp, fun _ h => h,
          by simp⟩
      | some ib =>
        obtain ⟨bd, hbd⟩ := Option.isSome_iff_exists.1 (hliveA ib (hB ib hbb))
        refine ⟨(sA.setBody ib { bd with _joints := bd._joints.filter (fun k => k != j) }).emit
            (.bodyRemoveJoint ib j),
          by simp [bodyRemoveJoint_eq sA ib j bd hbd], rfl, rfl, rfl,
          by simp [State.emit, State.setBody], ?_, ?_⟩
        · rintro i ⟨bd', hbd', hnot⟩
          by_cases hii : i = ib
          · subst hii
            exact ⟨{ bd with _joints := bd._joints.filter (fun k => k != j) },
              by simp [State.emit, State.setBody], by simp [List.mem_filter]⟩
          · exact ⟨bd', by simpa [State.emit, State.setBody, Function.update_noteq hii]
              using hbd', hnot⟩
        · intro i hi
          have : i = ib := by simpa using hi.symm
          subst this
          exact ⟨{ bd with _joints := bd._joints.filter (fun k => k != j) },
            by simp [State.emit, State.setBody], by simp [List.mem_filter]⟩
    obtain ⟨sB, hsB, hjB, hwB, hcB, htB, hkeepB, hdetB⟩ := stepB
    have hjB' : sB.joints j = some jt := by rw [hjB]; exact hjA'
    obtain ⟨s', hd, dj, dt, dw, db, -, dfree, -⟩ := deleteJoint_spec sB j jt hjB'
    refine ⟨s', ?_, ?_, ?_, ?_, dfree, ?_⟩
    · simp only [PhysicsJoint.destroy, derefJoint, hj, hw, bind, Except.bind,
        bne_self_eq_false, Bool.false_eq_true, if_false]
      by_cases cA : (jt._bodyA != none) = true <;> by_cases cB : (jt._bodyB != none) = true <;>
        simp only [cA, cB, if_true, if_false, Bool.false_eq_true, pure, Except.pure] at hsA hsB ⊢
      · rw [hsA]; simp only [hjA', cB, if_true]; rw [hsB]; exact hd
      · rw [hsA]; simp only [hjA', cB, if_false, Bool.false_eq_true]; cases hsB; exact hd
      · cases hsA; simp only [hj, cB, if_true]; rw [hsB]; exact hd
      · cases hsA; cases hsB; simp only [hj, cB, if_false, Bool.false_eq_true]; exact hd
    · rw [dw, hwB, hwA]
    · rw [dt, htB, htA]
    · rw [dj, hjB, hjA]
    · rintro i (hi | hi)
      · rw [db]; exact hkeepB i (hdetA i hi)
      · rw [db]; exact hdetB i hi

/-- C6, at the joint of `demoDetached`: no world, bodies 0 and 1, handles 4 and 9. -/
theorem C6_destroy_witness :
    ∃ s', PhysicsJoint.destroy demoDetached (some 0) = .ok s' ∧
      s'.trace = [Event.bodyRemoveJoint 0 0, Event.bodyRemoveJoint 1 0,
        Event.cpConstraintFree 4, Event.cpConstraintFree 9] ∧
      s'.joints 0 = none := by
  obtain ⟨s', h1, -, h3, h4, -, -⟩ := (C6_destroy demoDetached 0
    { PhysicsJoint.ctor with
      _bodyA := some 0, _bodyB := some 1, _collisionEnable := false, _cpConstraints := [4, 9] }
    (by simp [demoDetached, State.setJoint])).2.2 rfl
    (by intro i hi; cases hi; decide) (by intro i hi; cases hi; decide)
  exact ⟨s', h1, by simpa [demoDetached, State.setJoint, demoState] using h3, by simp [h4]⟩

/-! ## C7: `setEnable` -/

/-- `setEnable` on a live joint whose flag differs, in a live world. -/
theorem setEnable_attached (s : State F CpF) (j w : Nat) (jt : PhysicsJoint) (wd : PhysicsWorld)
    (e : Bool) (hj : s.joints j = some jt) (he : jt._enable ≠ e) (hw : jt._world = some w)
    (hwd : s.worlds w = some wd) :
    PhysicsJoint.setEnable s j e =
      .ok (((s.setJoint j { jt with _enable := e }).setWorld w
        (wd.request (if e then .add j else .remove j))).emit
        (if e then .addJointOrDelay w j else .removeJointOrDelay w j)) := by
  cases e <;>
    simp [PhysicsJoint.setEnable, derefJoint, hj, he, hw, PhysicsWorld.addJointOrDelay,
      PhysicsWorld.removeJointOrDelay, derefWorld, hwd, State.setJoint, State.setWorld,
      bind, Except.bind, pure, Except.pure]

/-- Modelled from the spec: after an add request and a remove request for the
same joint, the joint is not in the active set once the world has drained its
pending requests. -/
theorem drain_after_add_remove (wd : PhysicsWorld) (j : Nat) (hwf : wd.wellFormed = true) :
    j ∉ ((wd.request (.add j)).request (.remove j)).drain.active := by
  unfold PhysicsWorld.wellFormed at hwf
  cases hl : wd.locked with
  | true =>
    simp [PhysicsWorld.request, PhysicsWorld.drain, hl, List.foldl_append, WorldOp.apply,
      List.mem_filter]
  | false =>
    have hp : wd.pending = [] := by simpa [hl] using hwf
    simp [PhysicsWorld.request, PhysicsWorld.drain, hl, hp, WorldOp.apply, List.mem_filter]

/-- C7. On a live joint: `setEnable(e)` with `_enable` already `e` changes nothing
and calls nothing. When the flag differs and `_world` is null it sets the flag
and calls nothing. When the flag differs and `_world` is a live world it sets
the flag and issues exactly one request to that world, `addJointOrDelay(joint)`
for `e` true and `removeJointOrDelay(joint)` for `e` false. So on a disabled joint
in a live world, `setEnable(true)` then `setEnable(false)` issues one
add-or-delay and then one remove-or-delay request, and once the world has
drained its pending requests the joint is not in its active set. -/
theorem C7_setEnable (s : State F CpF) (j : Nat) (jt : PhysicsJoint) (e : Bool)
    (hj : s.joints j = some jt) :
    (jt._enable = e → PhysicsJoint.setEnable s j e = .ok s) ∧
      (jt._enable ≠ e → jt._world = none →
        PhysicsJoint.setEnable s j e = .ok (s.setJoint j { jt with _enable := e })) ∧
      (∀ w wd, jt._enable ≠ e → jt._world = some w → s.worlds w = some wd →
        ∃ s', PhysicsJoint.setEnable s j e = .ok s' ∧
          s'.joints = Function.update s.joints j (some { jt with _enable := e }) ∧
          s'.trace = s.trace ++
            [if e then Event.addJointOrDelay w j else Event.removeJointOrDelay w j] ∧
          s'.worlds w = some (wd.request (if e then .add j else .remove j)) ∧
          s'.bodies = s.bodies ∧ s'.constraints = s.constraints) ∧
      (∀ w wd, jt._enable = false → jt._world = some w → s.worlds w = some wd →
        wd.wellFormed = true →
        ∃ s1 s2 wd2, PhysicsJoint.setEnable s j true = .ok s1 ∧
          PhysicsJoint.setEnable s1 j false = .ok s2 ∧
          s2.trace = s.trace ++ [Event.addJointOrDelay w j, Event.removeJointOrDelay w j] ∧
          s2.joints j = some jt ∧
          s2.worlds w = some wd2 ∧ j ∉ wd2.drain.active) := by
  refine ⟨?_, ?_, ?_, ?_⟩
  · intro he
    simp [PhysicsJoint.setEnable, derefJoint, hj, he, bind, Except.bind, pure, Except.pure]
  · intro he hw
    simp [PhysicsJoint.setEnable, derefJoint, hj, he, hw, bind, Except.bind, pure, Except.pure]
  · intro w wd he hw hwd
    refine ⟨_, setEnable_attached s j w jt wd e hj he hw hwd, ?_, ?_, ?_, ?_, ?_⟩ <;>
      simp [State.setJoint, State.setWorld, State.emit]
  · intro w wd he hw hwd hwf
    have h1 := setEnable_attached s j w jt wd true hj (by simp [he]) hw hwd
    have h2 := setEnable_attached
      (((s.setJoint j { jt with _enable := true }).setWorld w (wd.request (.add j))).emit
        (.addJointOrDelay w j)) j w { jt with _enable := true } (wd.request (.add j)) false
      (by simp [State.setJoint, State.setWorld, State.emit]) (by simp) hw
      (by simp [State.setJoint, State.setWorld, State.emit])
    simp only [if_true] at h1
    simp only [Bool.false_eq_true, if_false] at h2
    refine ⟨_, _, (wd.request (.add j)).request (.remove j), h1, h2, ?_, ?_, ?_,
      drain_after_add_remove wd j hwf⟩
    · simp [State.setJoint, State.setWorld, State.emit]
    · simp only [State.setJoint, State.setWorld, State.emit, Function.update_same]
      rw [← he]
    · simp [State.setJoint, State.setWorld, State.emit]

/-- C7, at the joint of `demoAttached`: disabled, in the idle world 0. -/
theorem C7_setEnable_witness :
    ∃ s1 s2 wd2, PhysicsJoint.setEnable demoAttached 0 true = .ok s1 ∧
      PhysicsJoint.setEnable s1 0 false = .ok s2 ∧
      s2.trace = [Event.addJointOrDelay 0 0, Event.removeJointOrDelay 0 0] ∧
      s2.worlds 0 = some wd2 ∧ 0 ∉ wd2.drain.active := by
  obtain ⟨s1, s2, wd2, h1, h2, h3, -, h5, h6⟩ := (C7_setEnable demoAttached 0
    { PhysicsJoint.ctor with
      _bodyA := some 0, _bodyB := some 1, _world := some 0, _cpConstraints := [4] } false
    (by simp [demoAttached, State.setJoint])).2.2.2 0
    { active := [], pending := [], locked := false } rfl rfl
    (by simp [demoAttached, State.setJoint, demoState]) (by decide)
  exact ⟨s1, s2, wd2, h1, h2, by simpa [demoAttached, State.setJoint, demoState] using h3,
    h5, h6⟩

/-! ## C8: the default maximum of the limit joint -/

/-- C8. For live distinct bodies `a` and `b`, the four-argument
`PhysicsJointLimit::construct(a, b, anchr1, anchr2)` is the six-argument one with
`min` 0 and `max` the distance, before the call, from `b->local2World(anchr1)` to
`a->local2World(anchr2)`; it returns a joint when no allocation fails; and on the
joint it returns, with `cpfloat2float` a left inverse of `float2cpfloat`,
`getMin()` returns 0 and `getMax()` returns that distance. -/
theorem C8_limit_default_max [Zero F] [Sub F] [Zero CpF] [One CpF] (env : Env F CpF)
    (s : State F CpF) (ia ib : Nat) (ba bb : PhysicsBody F) (anchr1 anchr2 : Vec2 F)
    (ha : s.bodies ia = some ba) (hb : s.bodies ib = some bb) (hab : ia ≠ ib)
    (hconv : ∀ x, env.cpfloat2float (env.float2cpfloat x) = x) :
    PhysicsJointLimit.construct4 env s (some ia) (some ib) anchr1 anchr2 =
        PhysicsJointLimit.construct env s (some ia) (some ib) anchr1 anchr2 0
          (env.getDistance (env.local2World bb anchr1) (env.local2World ba anchr2)) ∧
      (s.newOutcomes.head? ≠ some false → s.factoryOutcomes.head? ≠ some false →
        returned (PhysicsJointLimit.construct4 env s (some ia) (some ib) anchr1 anchr2) =
          some (some s.nextJoint)) ∧
      (∀ j s', PhysicsJointLimit.construct4 env s (some ia) (some ib) anchr1 anchr2 =
          .ok (some j, s') →
        PhysicsJointLimit.getMin env s' j = .ok 0 ∧
          PhysicsJointLimit.getMax env s' j =
            .ok (env.getDistance (env.local2World bb anchr1) (env.local2World ba anchr2))) := by
  have heq : PhysicsJointLimit.construct4 env s (some ia) (some ib) anchr1 anchr2 =
      PhysicsJointLimit.construct env s (some ia) (some ib) anchr1 anchr2 0
        (env.getDistance (env.local2World bb anchr1) (env.local2World ba anchr2)) := by
    simp [PhysicsJointLimit.construct4, local2World, derefBody, ha, hb, bind, Except.bind, pure,
      Except.pure]
  refine ⟨heq, ?_, ?_⟩
  · intro hn hf
    exact construct_single_succeeds env s ia ib ba bb (.limit4 anchr1 anchr2) ha hb hab
      (by simp [Args.variant]) hn hf
  · intro j s' h
    rw [heq] at h
    obtain ⟨-, -, hj, c, hc, hk⟩ := limit_construct_some env s s' _ _ _ _ _ _ j h
    have hfront : front s' j = .ok s.nextHandle := by
      simp [front, derefJoint, hj, bind, Except.bind]
    constructor <;>
      simp [PhysicsJointLimit.getMin, PhysicsJointLimit.getMax, hfront, derefConstraint, hc,
        cpSlideJointGet, hk, hconv, bind, Except.bind, pure, Except.pure]

/-- C8, at the scene `demoState`: body 1 is at (3, 4), so its anchor (1, 2) is at
(4, 6), ten taxicab units from the anchor (0, 0) of body 0. -/
theorem C8_limit_default_max_witness :
    returned (PhysicsJointLimit.construct4 (demoEnv true) demoState (some 0) (some 1)
        ⟨1, 2⟩ ⟨0, 0⟩) = some (some 0) ∧
      (stateAfter (PhysicsJointLimit.construct4 (demoEnv true) demoState (some 0) (some 1)
        ⟨1, 2⟩ ⟨0, 0⟩)).map (fun s' => PhysicsJointLimit.getMax (demoEnv true) s' 0) =
        some (.ok 10) := by
  obtain ⟨-, h2, h3⟩ := C8_limit_default_max (demoEnv true) demoState 0 1
    { _joints := [], _node := some 10, _cpBody := 100, position := ⟨0, 0⟩, rotation := 0 }
    { _joints := [], _node := some 11, _cpBody := 101, position := ⟨3, 4⟩, rotation := 5 }
    ⟨1, 2⟩ ⟨0, 0⟩ rfl rfl (by decide) (fun x => Int.mul_ediv_cancel x (by decide))
  have hr := h2 (by decide) (by decide)
  obtain ⟨s', hs'⟩ := (returned_eq_some _ _).1 hr
  refine ⟨hr, ?_⟩
  have hmax := (h3 _ _ hs').2
  rw [hs']
  simpa [stateAfter] using hmax


/-! ## C9: the default limits of the rotary limit joint -/

/-- C9. The two-argument `PhysicsJointRotaryLimit::construct(a, b)` is
`construct(a, b, 0, 0)`; for live distinct bodies it returns a joint when no
allocation fails; and the joint it returns owns one rotary limit constraint
created with `min` and `max` the converted 0, so that, with `cpfloat2float` a left
inverse of `float2cpfloat`, `getMin()` and `getMax()` both return 0. -/
theorem C9_rotary_limit_default [Zero F] [Sub F] [Zero CpF] [One CpF] (env : Env F CpF)
    (s : State F CpF) (ia ib : Nat) (ba bb : PhysicsBody F)
    (ha : s.bodies ia = some ba) (hb : s.bodies ib = some bb) (hab : ia ≠ ib)
    (hconv : ∀ x, env.cpfloat2float (env.float2cpfloat x) = x) :
    PhysicsJointRotaryLimit.construct2 env s (some ia) (some ib) =
        PhysicsJointRotaryLimit.construct env s (some ia) (some ib) 0 0 ∧
      (s.newOutcomes.head? ≠ some false → s.factoryOutcomes.head? ≠ some false →
        returned (PhysicsJointRotaryLimit.construct2 env s (some ia) (some ib)) =
          some (some s.nextJoint)) ∧
      (∀ j s', PhysicsJointRotaryLimit.construct2 env s (some ia) (some ib) = .ok (some j, s') →
        ∃ jt c h, s'.joints j = some jt ∧ jt._cpConstraints = [h] ∧
          s'.constraints h = some c ∧
          c.kind = .rotaryLimit (env.float2cpfloat 0) (env.float2cpfloat 0) ∧
          PhysicsJointRotaryLimit.getMin env s' j = .ok 0 ∧
          PhysicsJointRotaryLimit.getMax env s' j = .ok 0) := by
  refine ⟨rfl, ?_, ?_⟩
  · intro hn hf
    exact construct_single_succeeds env s ia ib ba bb .rotaryLimit2 ha hb hab
      (by simp [Args.variant]) hn hf
  · intro j s' h
    obtain ⟨-, -, hj, c, hc, hk⟩ := rotaryLimit_construct_some env s s' _ _ _ _ j h
    have hfront : front s' j = .ok s.nextHandle := by
      simp [front, derefJoint, hj, bind, Except.bind]
    refine ⟨_, c, s.nextHandle, hj, rfl, hc, hk, ?_, ?_⟩ <;>
      simp [PhysicsJointRotaryLimit.getMin, PhysicsJointRotaryLimit.getMax, hfront,
        derefConstraint, hc, cpRotaryLimitJointGet, hk, hconv, bind, Except.bind, pure,
        Except.pure]

/-- C9, at the scene `demoState`. -/
theorem C9_rotary_limit_default_witness :
    returned (PhysicsJointRotaryLimit.construct2 (demoEnv true) demoState (some 0) (some 1)) =
      some (some 0) :=
  (C9_rotary_limit_default (demoEnv true) demoState 0 1
    { _joints := [], _node := some 10, _cpBody := 100, position := ⟨0, 0⟩, rotation := 0 }
    { _joints := [], _node := some 11, _cpBody := 101, position := ⟨3, 4⟩, rotation := 5 }
    rfl rfl (by decide) (fun x => Int.mul_ediv_cancel x (by decide))).2.1
    (by decide) (by decide)

/-! ## C10: the collision flag -/

/-- C10. Every fixed joint that `construct` returns has `_collisionEnable`
false and every joint of another class has it true; `setCollisionEnable` is
idempotent on every live joint and for every value; and on the fixed joint as
constructed, enabling collision and disabling it again gives back the state as
constructed. -/
theorem C10_collision_flag [Zero F] [Sub F] [Zero CpF] [One CpF] (env : Env F CpF)
    (s : State F CpF) (a b : Option Nat) (args : Args F) (j : Nat)
    (h : returned (construct env s a b args) = some (some j)) :
    ∃ s' jt, construct env s a b args = .ok (some j, s') ∧ s'.joints j = some jt ∧
      (args.variant = .fixed → jt._collisionEnable = false) ∧
      (args.variant ≠ .fixed → jt._collisionEnable = true) ∧
      (∀ (t : State F CpF) (k : Nat) (e : Bool), (t.joints k).isSome = true →
        ∃ t1, PhysicsJoint.setCollisionEnable t k e = .ok t1 ∧
          PhysicsJoint.setCollisionEnable t1 k e = .ok t1) ∧
      (args.variant = .fixed →
        ∃ s1, PhysicsJoint.setCollisionEnable s' j true = .ok s1 ∧
          s1 ≠ s' ∧ PhysicsJoint.setCollisionEnable s1 j false = .ok s') := by
  obtain ⟨s', hs'⟩ := (returned_eq_some _ _).1 h
  obtain ⟨-, -, hj, -, -⟩ := construct_some env s s' a b args j hs'
  refine ⟨s', _, hs', hj, ?_, ?_, ?_, ?_⟩
  · intro hv; simp [hv]
  · intro hv; simp [hv]
  · intro t k e hk
    obtain ⟨kt, hkt⟩ := Option.isSome_iff_exists.1 hk
    by_cases hc : kt._collisionEnable = e
    · refine ⟨t, ?_, ?_⟩ <;> simp [setCollisionEnable_eq t k kt e hkt, hc]
    · refine ⟨t.setJoint k { kt with _collisionEnable := e }, ?_, ?_⟩
      · simp [setCollisionEnable_eq t k kt e hkt, hc]
      · rw [setCollisionEnable_eq _ k { kt with _collisionEnable := e } e
          (by simp [State.setJoint])]
        simp
  · intro hv
    refine ⟨s'.setJoint j { PhysicsJoint.ctor with
      _bodyA := a, _bodyB := b, _collisionEnable := true,
      _cpConstraints := [s.nextHandle, s.nextHandle + 1] }, ?_, ?_, ?_⟩
    · rw [setCollisionEnable_eq s' j _ true hj]
      simp [hv]
    · intro he
      have := congrArg (fun t => t.joints j) he
      simp [State.setJoint, hj, hv] at this
    · rw [setCollisionEnable_eq _ j { PhysicsJoint.ctor with
        _bodyA := a, _bodyB := b, _collisionEnable := true,
        _cpConstraints := [s.nextHandle, s.nextHandle + 1] } false (by simp [State.setJoint])]
      have hu : Function.update s'.joints j (some { PhysicsJoint.ctor with
          _bodyA := a, _bodyB := b, _collisionEnable := false,
          _cpConstraints := [s.nextHandle, s.nextHandle + 1] }) = s'.joints := by
        have := Function.update_eq_self j s'.joints
        rw [hj] at this
        simpa [hv] using this
      simp [State.setJoint, hu]

/-- C10, at the scene `demoState`: a fixed joint between the bodies 0 and 1. -/
theorem C10_collision_flag_witness :
    ∃ s' jt, construct (demoEnv true) demoState (some 0) (some 1) (.fixed ⟨1, 2⟩) =
        .ok (some 0, s') ∧ s'.joints 0 = some jt ∧ jt._collisionEnable = false ∧
      ∃ s1, PhysicsJoint.setCollisionEnable s' 0 true = .ok s1 ∧
        PhysicsJoint.setCollisionEnable s1 0 false = .ok s' := by
  obtain ⟨s', jt, h1, h2, h3, -, -, h4⟩ := C10_collision_flag (demoEnv true) demoState
    (some 0) (some 1) (.fixed ⟨1, 2⟩) 0 (by decide)
  obtain ⟨s1, q1, -, q2⟩ := h4 rfl
  exact ⟨s', jt, h1, h2, h3 rfl, s1, q1, q2⟩

/-! ## C11: what `PhysicsJoint::init` changes -/

/-- `PhysicsJoint::init` on a live joint and live distinct bodies, in closed form. -/
theorem init_valid (env : Env F CpF) (s : State F CpF) (this ia ib : Nat) (jt : PhysicsJoint)
    (ba bb : PhysicsBody F) (hj : s.joints this = some jt) (ha : s.bodies ia = some ba)
    (hb : s.bodies ib = some bb) (hab : ia ≠ ib) :
    PhysicsJoint.init env s this (some ia) (some ib) = .ok (true,
      { s with
        joints := Function.update s.joints this
          (some { jt with _bodyA := some ia, _bodyB := some ib })
        bodies := Function.update (Function.update s.bodies ia
          (some { ba with _joints := ba._joints ++ [this] })) ib
          (some { bb with _joints := bb._joints ++ [this] }) }) := by
  simp [PhysicsJoint.init, CCASSERT, derefJoint, derefBody, State.setJoint, State.setBody,
    bind, Except.bind, pure, Except.pure, hj, ha, hb, hab, Function.update_noteq (Ne.symm hab)]

/-- C11. For a live joint and live distinct bodies `a` and `b`,
`PhysicsJoint::init(a, b)` returns true; it sets `_bodyA` to `a` and `_bodyB` to
`b` and leaves `_world`, `_enable`, `_collisionEnable`, `_destoryMark`, `_tag` and
the owned constraints of the joint as they were; the joint list of `a` and the
joint list of `b` are the lists before the call with the joint appended once at
the end; and no other joint, no other body, and no node, world, constraint or
call trace is changed. -/
theorem C11_init_registers_the_joint (env : Env F CpF) (s : State F CpF) (this ia ib : Nat)
    (jt : PhysicsJoint) (ba bb : PhysicsBody F) (hj : s.joints this = some jt)
    (ha : s.bodies ia = some ba) (hb : s.bodies ib = some bb) (hab : ia ≠ ib) :
    ∃ s' jt' ba' bb', PhysicsJoint.init env s this (some ia) (some ib) = .ok (true, s') ∧
      s'.joints this = some jt' ∧
      jt'._bodyA = some ia ∧ jt'._bodyB = some ib ∧
      jt'._world = jt._world ∧ jt'._enable = jt._enable ∧
      jt'._collisionEnable = jt._collisionEnable ∧ jt'._destoryMark = jt._destoryMark ∧
      jt'._tag = jt._tag ∧ jt'._cpConstraints = jt._cpConstraints ∧
      s'.bodies ia = some ba' ∧ ba' = { ba with _joints := ba._joints ++ [this] } ∧
      s'.bodies ib = some bb' ∧ bb' = { bb with _joints := bb._joints ++ [this] } ∧
      ba'._joints.count this = ba._joints.count this + 1 ∧
      bb'._joints.count this = bb._joints.count this + 1 ∧
      (∀ k, k ≠ this → s'.joints k = s.joints k) ∧
      (∀ i, i ≠ ia → i ≠ ib → s'.bodies i = s.bodies i) ∧
      s'.nodes = s.nodes ∧ s'.worlds = s.worlds ∧ s'.constraints = s.constraints ∧
      s'.trace = s.trace := by
  refine ⟨_, { jt with _bodyA := some ia, _bodyB := some ib },
    { ba with _joints := ba._joints ++ [this] }, { bb with _joints := bb._joints ++ [this] },
    init_valid env s this ia ib jt ba bb hj ha hb hab, ?_, rfl, rfl, rfl, rfl, rfl, rfl, rfl, rfl,
    ?_, rfl, ?_, rfl, ?_, ?_, ?_, ?_, rfl, rfl, rfl, rfl⟩
  · simp
  · simp [Function.update_noteq hab]
  · simp
  · simp [List.count_append]
  · simp [List.count_append]
  · intro k hk
    simp [Function.update_noteq hk]
  · intro i h1 h2
    simp [Function.update_noteq h1, Function.update_noteq h2]

/-- C11, at the scene `demoDetached`, whose joint 0 has collision disabled: after
`init` on the bodies 0 and 1 the joint is the last entry of both joint lists. -/
theorem C11_init_registers_the_joint_witness :
    returned (PhysicsJoint.init (demoEnv true) demoDetached 0 (some 0) (some 1)) = some true ∧
      ((stateAfter (PhysicsJoint.init (demoEnv true) demoDetached 0 (some 0) (some 1))).bind
        (fun s' => s'.bodies 1)).map (fun bd => bd._joints) = some [0] := by
  obtain ⟨s', jt', ba', bb', h, -, -, -, -, -, -, -, -, -, -, -, hb1, hb2, -⟩ :=
    C11_init_registers_the_joint (demoEnv true) demoDetached 0 0 1
      { PhysicsJoint.ctor with
        _bodyA := some 0, _bodyB := some 1, _collisionEnable := false, _cpConstraints := [4, 9] }
      { _joints := [], _node := some 10, _cpBody := 100, position := ⟨0, 0⟩, rotation := 0 }
      { _joints := [], _node := some 11, _cpBody := 101, position := ⟨3, 4⟩, rotation := 5 }
      (by simp [demoDetached, State.setJoint]) rfl rfl (by decide)
  rw [h]
  subst hb2
  simp [returned, stateAfter, hb1]

/-! ## C12: the anchor setters -/

theorem front_eq (s : State F CpF) (j h : Nat) (jt : PhysicsJoint) (rest : List Nat)
    (hj : s.joints j = some jt) (hl : jt._cpConstraints = h :: rest) :
    front s j = .ok h := by
  simp [front, derefJoint, hj, hl, bind, Except.bind]


theorem limit_getAnchrs_eq (env : Env F CpF) (s : State F CpF) (j h : Nat) (jt : PhysicsJoint)
    (rest : List Nat) (c : cpConstraint CpF) (anchr1 anchr2 : cpVect CpF) (min max : CpF)
    (hj : s.joints j = some jt) (hl : jt._cpConstraints = h :: rest)
    (hc : s.constraints h = some c) (hk : c.kind = .slide anchr1 anchr2 min max) :
    PhysicsJointLimit.getAnchr1 env s j = .ok (env.cpv2point anchr1) ∧
      PhysicsJointLimit.getAnchr2 env s j = .ok (env.cpv2point anchr2) := by
  constructor <;>
    simp [PhysicsJointLimit.getAnchr1, PhysicsJointLimit.getAnchr2, front_eq s j h jt rest hj hl,
      derefConstraint, hc, cpSlideJointGetAnchrs, hk, bind, Except.bind, pure, Except.pure]

theorem spring_getAnchrs_eq (env : Env F CpF) (s : State F CpF) (j h : Nat) (jt : PhysicsJoint)
    (rest : List Nat) (c : cpConstraint CpF) (anchr1 anchr2 : cpVect CpF)
    (restLength stiffness damping : CpF)
    (hj : s.joints j = some jt) (hl : jt._cpConstraints = h :: rest)
    (hc : s.constraints h = some c)
    (hk : c.kind = .dampedSpring anchr1 anchr2 restLength stiffness damping) :
    PhysicsJointSpring.getAnchr1 env s j = .ok (env.cpv2point anchr1) ∧
      PhysicsJointSpring.getAnchr2 env s j = .ok (env.cpv2point anchr2) := by
  constructor <;>
    simp [PhysicsJointSpring.getAnchr1, PhysicsJointSpring.getAnchr2,
      front_eq s j h jt rest hj hl, derefConstraint, hc, cpDampedSpringGetAnchrs, hk, bind,
      Except.bind, pure, Except.pure]

theorem groove_getAnchr2_eq (env : Env F CpF) (s : State F CpF) (j h : Nat) (jt : PhysicsJoint)
    (rest : List Nat) (c : cpConstraint CpF) (grooveA grooveB anchr2 : cpVect CpF)
    (hj : s.joints j = some jt) (hl : jt._cpConstraints = h :: rest)
    (hc : s.constraints h = some c) (hk : c.kind = .groove grooveA grooveB anchr2) :
    PhysicsJointGroove.getAnchr2 env s j = .ok (env.cpv2point anchr2) := by
  simp [PhysicsJointGroove.getAnchr2, front_eq s j h jt rest hj hl, derefConstraint, hc,
    cpGrooveJointGetAnchr2, hk, bind, Except.bind, pure, Except.pure]

/-- C12. On a live joint whose first owned constraint is live, with `cpv2point` a
left inverse of `point2cpv`, for every point `p`: when the constraint is a slide
joint (`PhysicsJointLimit`) or a damped spring (`PhysicsJointSpring`),
`setAnchr2(p)` returns, does what `setAnchr1(p)` does, writes anchor 1 of the
constraint and leaves anchor 2, so that afterwards `getAnchr1()` returns `p` and
`getAnchr2()` returns what it returned before the call; when the constraint is a
groove joint (`PhysicsJointGroove`), `setAnchr2(p)` writes anchor 2, so that
afterwards `getAnchr2()` returns `p`. -/
theorem C12_setAnchr2 (env : Env F CpF) (s : State F CpF) (j h : Nat) (jt : PhysicsJoint)
    (rest : List Nat) (c : cpConstraint CpF) (p : Vec2 F)
    (hj : s.joints j = some jt) (hl : jt._cpConstraints = h :: rest)
    (hc : s.constraints h = some c)
    (hconv : ∀ q, env.cpv2point (env.point2cpv q) = q) :
    (∀ anchr1 anchr2 min max, c.kind = .slide anchr1 anchr2 min max →
      ∃ s', PhysicsJointLimit.setAnchr2 env s j p = .ok s' ∧
        PhysicsJointLimit.setAnchr1 env s j p = .ok s' ∧
        s'.constraints h = some { c with kind := .slide (env.point2cpv p) anchr2 min max } ∧
        PhysicsJointLimit.getAnchr1 env s' j = .ok p ∧
        PhysicsJointLimit.getAnchr2 env s j = .ok (env.cpv2point anchr2) ∧
        PhysicsJointLimit.getAnchr2 env s' j = .ok (env.cpv2point anchr2)) ∧
      (∀ anchr1 anchr2 restLength stiffness damping,
        c.kind = .dampedSpring anchr1 anchr2 restLength stiffness damping →
        ∃ s', PhysicsJointSpring.setAnchr2 env s j p = .ok s' ∧
          PhysicsJointSpring.setAnchr1 env s j p = .ok s' ∧
          s'.constraints h = some { c with
            kind := .dampedSpring (env.point2cpv p) anchr2 restLength stiffness damping } ∧
          PhysicsJointSpring.getAnchr1 env s' j = .ok p ∧
          PhysicsJointSpring.getAnchr2 env s j = .ok (env.cpv2point anchr2) ∧
          PhysicsJointSpring.getAnchr2 env s' j = .ok (env.cpv2point anchr2)) ∧
      (∀ grooveA grooveB anchr2, c.kind = .groove grooveA grooveB anchr2 →
        ∃ s', PhysicsJointGroove.setAnchr2 env s j p = .ok s' ∧
          s'.constraints h = some { c with
            kind := .groove grooveA grooveB (env.point2cpv p) } ∧
          PhysicsJointGroove.getAnchr2 env s' j = .ok p) := by
  have hf := front_eq s j h jt rest hj hl
  refine ⟨?_, ?_, ?_⟩
  · intro anchr1 anchr2 min max hk
    have hset : PhysicsJointLimit.setAnchr2 env s j p =
        .ok (s.setConstraint h { c with kind := .slide (env.point2cpv p) anchr2 min max }) := by
      simp [PhysicsJointLimit.setAnchr2, hf, derefConstraint, hc, cpSlideJointSetAnchr1, hk,
        bind, Except.bind, pure, Except.pure]
    obtain ⟨g1, g2⟩ := limit_getAnchrs_eq env
      (s.setConstraint h { c with kind := .slide (env.point2cpv p) anchr2 min max }) j h jt rest
      { c with kind := .slide (env.point2cpv p) anchr2 min max } (env.point2cpv p) anchr2 min max
      (by simpa [State.setConstraint] using hj) hl (by simp [State.setConstraint]) rfl
    refine ⟨_, hset, ?_, ?_, ?_, ?_, g2⟩
    · simp [PhysicsJointLimit.setAnchr1, hf, derefConstraint, hc, cpSlideJointSetAnchr1, hk,
        bind, Except.bind, pure, Except.pure]
    · simp [State.setConstraint]
    · rw [g1, hconv]
    · exact (limit_getAnchrs_eq env s j h jt rest c anchr1 anchr2 min max hj hl hc hk).2
  · intro anchr1 anchr2 restLength stiffness damping hk
    have hset : PhysicsJointSpring.setAnchr2 env s j p =
        .ok (s.setConstraint h { c with
          kind := .dampedSpring (env.point2cpv p) anchr2 restLength stiffness damping }) := by
      simp [PhysicsJointSpring.setAnchr2, hf, derefConstraint, hc, cpDampedSpringSetAnchr1, hk,
        bind, Except.bind, pure, Except.pure]
    obtain ⟨g1, g2⟩ := spring_getAnchrs_eq env
      (s.setConstraint h { c with
        kind := .dampedSpring (env.point2cpv p) anchr2 restLength stiffness damping }) j h jt rest
      { c with kind := .dampedSpring (env.point2cpv p) anchr2 restLength stiffness damping }
      (env.point2cpv p) anchr2 restLength stiffness damping
      (by simpa [State.setConstraint] using hj) hl (by simp [State.setConstraint]) rfl
    refine ⟨_, hset, ?_, ?_, ?_, ?_, g2⟩
    · simp [PhysicsJointSpring.setAnchr1, hf, derefConstraint, hc, cpDampedSpringSetAnchr1, hk,
        bind, Except.bind, pure, Except.pure]
    · simp [State.setConstraint]
    · rw [g1, hconv]
    · exact (spring_getAnchrs_eq env s j h jt rest c anchr1 anchr2 restLength stiffness damping
        hj hl hc hk).2
  · intro grooveA grooveB anchr2 hk
    have hset : PhysicsJointGroove.setAnchr2 env s j p =
        .ok (s.setConstraint h { c with
          kind := .groove grooveA grooveB (env.point2cpv p) }) := by
      simp [PhysicsJointGroove.setAnchr2, hf, derefConstraint, hc, cpGrooveJointSetAnchr2, hk,
        bind, Except.bind, pure, Except.pure]
    have g := groove_getAnchr2_eq env
      (s.setConstraint h { c with kind := .groove grooveA grooveB (env.point2cpv p) }) j h jt
      rest { c with kind := .groove grooveA grooveB (env.point2cpv p) } grooveA grooveB
      (env.point2cpv p) (by simpa [State.setConstraint] using hj) hl
      (by simp [State.setConstraint]) rfl
    refine ⟨_, hset, ?_, ?_⟩
    · simp [State.setConstraint]
    · rw [g, hconv]

/-- C12, at the limit joint of `demoLimit`, whose slide constraint has the anchors
(2, 4) and (6, 8) in engine units, that is (1, 2) and (3, 4): after
`setAnchr2((5, 7))`, `getAnchr1()` returns (5, 7) and `getAnchr2()` still returns
(3, 4). -/
theorem C12_setAnchr2_witness :
    ∃ s', PhysicsJointLimit.setAnchr2 (demoEnv true) demoLimit 0 ⟨5, 7⟩ = .ok s' ∧
      PhysicsJointLimit.getAnchr1 (demoEnv true) s' 0 = .ok ⟨5, 7⟩ ∧
      PhysicsJointLimit.getAnchr2 (demoEnv true) s' 0 = .ok ⟨3, 4⟩ := by
  obtain ⟨s', h1, -, -, h4, -, h6⟩ := (C12_setAnchr2 (demoEnv true) demoLimit 0 4
    { PhysicsJoint.ctor with _bodyA := some 0, _bodyB := some 1, _cpConstraints := [4] } []
    { a := 100, b := 101, maxForce := 1000000, kind := .slide ⟨2, 4⟩ ⟨6, 8⟩ 0 20 } ⟨5, 7⟩
    (by simp [demoLimit, State.setJoint, State.setConstraint]) rfl
    (by simp [demoLimit, State.setJoint, State.setConstraint])
    (by
      intro q
      cases q with
      | mk x y =>
        simp only [demoEnv, Vec2.mk.injEq]
        exact ⟨Int.mul_ediv_cancel x (by decide), Int.mul_ediv_cancel y (by decide)⟩)).1
    ⟨2, 4⟩ ⟨6, 8⟩ 0 20 rfl
  exact ⟨s', h1, h4, by simpa [demoEnv] using h6⟩

/-! ## C13: the bodies after a failed `construct` -/

set_option maxHeartbeats 1600000 in
/-- With live distinct bodies and a joint object allocated, when the factory
returns null, `construct` of a class with one constraint returns null, moves no
node and leaves the bodies as `PhysicsJoint::init` left them. -/
theorem construct_null_single_frame [Zero F] [Sub F] [Zero CpF] [One CpF]
    (env : Env F CpF) (s : State F CpF) (ia ib : Nat) (ba bb : PhysicsBody F) (args : Args F)
    (ha : s.bodies ia = some ba) (hb : s.bodies ib = some bb) (hab : ia ≠ ib)
    (hv : args.variant ≠ .fixed) (hn : s.newOutcomes.head? ≠ some false)
    (rest : List Bool) (hf : s.factoryOutcomes = false :: rest) :
    ∃ s', construct env s (some ia) (some ib) args = .ok (none, s') ∧
      s'.nodes = s.nodes ∧
      s'.bodies = Function.update (Function.update s.bodies ia
        (some { ba with _joints := ba._joints ++ [s.nextJoint] })) ib
        (some { bb with _joints := bb._joints ++ [s.nextJoint] }) := by
  have hba := Ne.symm hab
  rcases hn2 : s.newOutcomes with _ | ⟨_ | _, nrest⟩ <;> cases args <;>
    first
    | exact absurd rfl hv
    | (exfalso; simp [hn2] at hn; done)
    | simp [construct, PhysicsJointPin.construct, PhysicsJointPin.init,
        PhysicsJointLimit.construct, PhysicsJointLimit.init, PhysicsJointLimit.construct4,
        PhysicsJointDistance.construct, PhysicsJointDistance.init,
        PhysicsJointSpring.construct, PhysicsJointSpring.init,
        PhysicsJointGroove.construct, PhysicsJointGroove.init,
        PhysicsJointRotarySpring.construct, PhysicsJointRotarySpring.init,
        PhysicsJointRotaryLimit.construct, PhysicsJointRotaryLimit.init,
        PhysicsJointRotaryLimit.construct2,
        PhysicsJointRatchet.construct, PhysicsJointRatchet.init,
        PhysicsJointGear.construct, PhysicsJointGear.init,
        PhysicsJointMotor.construct, PhysicsJointMotor.init,
        constructWith, newJoint, hn2, PhysicsJoint.init, CCASSERT, derefJoint, derefBody,
        State.setJoint, State.setBody, getCPBody, getRotation, local2World, finishInit,
        cpConstraintNew, hf, deleteJoint, PhysicsJoint.dtor, PhysicsJoint.setCollisionEnable,
        PhysicsJoint.ctor, bind, Except.bind, pure, Except.pure, ha, hb, hab, hba,
        Function.update_noteq hab, Function.update_noteq hba]

set_option maxHeartbeats 3200000 in
/-- With live distinct bodies that have live nodes and a joint object allocated,
when a factory returns null, `PhysicsJointFixed::construct` returns null with
both nodes at the anchor and the bodies as `PhysicsJoint::init` left them. -/
theorem construct_null_fixed_frame [Zero CpF] [One CpF]
    (env : Env F CpF) (s : State F CpF) (ia ib na nb : Nat) (ba bb : PhysicsBody F)
    (nda ndb : Node F) (anchr : Vec2 F)
    (ha : s.bodies ia = some ba) (hb : s.bodies ib = some bb) (hab : ia ≠ ib)
    (hna : ba._node = some na) (hnb : bb._node = some nb)
    (hnda : s.nodes na = some nda) (hndb : s.nodes nb = some ndb)
    (hn : s.newOutcomes.head? ≠ some false)
    (hf : s.factoryOutcomes.head? = some false ∨ s.factoryOutcomes.get? 1 = some false) :
    ∃ s', PhysicsJointFixed.construct env s (some ia) (some ib) anchr = .ok (none, s') ∧
      s'.nodes = Function.update (Function.update s.nodes na (some { position := anchr })) nb
        (some { position := anchr }) ∧
      s'.bodies = Function.update (Function.update s.bodies ia
        (some { ba with _joints := ba._joints ++ [s.nextJoint] })) ib
        (some { bb with _joints := bb._joints ++ [s.nextJoint] }) := by
  have hba := Ne.symm hab
  have hnn : ∃ ndb2, (Function.update s.nodes na
      (some { position := anchr } : Option (Node F))) nb = some ndb2 := by
    by_cases e : nb = na
    · subst e
      exact ⟨_, Function.update_same _ _ _⟩
    · exact ⟨ndb, by rw [Function.update_noteq e]; exact hndb⟩
  obtain ⟨ndb2, hndb2⟩ := hnn
  rcases hn2 : s.newOutcomes with _ | ⟨_ | _, nrest⟩ <;>
    rcases hf2 : s.factoryOutcomes with _ | ⟨_ | _, _ | ⟨_ | _, frest⟩⟩ <;>
    first
    | (exfalso; simp [hf2] at hf; done)
    | (exfalso; simp [hn2] at hn; done)
    | simp [PhysicsJointFixed.construct, PhysicsJointFixed.init,
        constructWith, newJoint, hn2, PhysicsJoint.init, CCASSERT, derefJoint, derefBody,
        derefNode, PhysicsJoint.getBodyNode, Node.setPosition, State.setNode,
        State.setJoint, State.setBody, getCPBody, pushConstraint,
        cpConstraintNew, hf2, deleteJoint, PhysicsJoint.dtor, PhysicsJoint.setCollisionEnable,
        cpConstraintFree,
        PhysicsJoint.ctor, bind, Except.bind, pure, Except.pure, ha, hb, hab, hba,
        hna, hnb, hnda, hndb, hndb2,
        Function.update_noteq hab, Function.update_noteq hba]

/-- C13 (the claim fails as stated). At the scene `demoState` with the first
factory call returning null, `PhysicsJointFixed::construct` on the bodies 0 and 1
with the anchor (1, 2) returns null, and afterwards the joint list of body 0,
empty before the call, holds the address 0 of the joint, which is no longer
alive, and the node of body 0, at (0, 0) before the call, is at (1, 2); the
joint list of body 1 holds the deleted joint as well after a failed
`PhysicsJointPin::construct`. -/
theorem C13_failed_construct_leaves_traces :
    returned (construct (demoEnv true) { demoState with factoryOutcomes := [false] }
        (some 0) (some 1) (.fixed ⟨1, 2⟩)) = some none ∧
      (demoState.bodies 0).map (fun bd => bd._joints) = some [] ∧
      ((stateAfter (construct (demoEnv true) { demoState with factoryOutcomes := [false] }
        (some 0) (some 1) (.fixed ⟨1, 2⟩))).bind (fun s' => s'.bodies 0)).map
          (fun bd => bd._joints) = some [0] ∧
      (stateAfter (construct (demoEnv true) { demoState with factoryOutcomes := [false] }
        (some 0) (some 1) (.fixed ⟨1, 2⟩))).bind (fun s' => s'.joints 0) = none ∧
      (demoState.nodes 10).map (fun nd => nd.position) = some ⟨0, 0⟩ ∧
      ((stateAfter (construct (demoEnv true) { demoState with factoryOutcomes := [false] }
        (some 0) (some 1) (.fixed ⟨1, 2⟩))).bind (fun s' => s'.nodes 10)).map
          (fun nd => nd.position) = some ⟨1, 2⟩ ∧
      returned (construct (demoEnv true) { demoState with factoryOutcomes := [false] }
        (some 0) (some 1) (.pin ⟨1, 2⟩)) = some none ∧
      ((stateAfter (construct (demoEnv true) { demoState with factoryOutcomes := [false] }
        (some 0) (some 1) (.pin ⟨1, 2⟩))).bind (fun s' => s'.bodies 1)).map
          (fun bd => bd._joints) = some [0] := by
  decide

/-- C13 (amended). For every joint class and argument list and every pair of
valid distinct bodies `a` and `b`, when the joint object is allocated and
`construct` returns null because a constraint factory returned a null handle:
for the ten classes other than the fixed joint no node is changed; for the fixed
joint the nodes of `a` and `b` are at the anchor passed to `construct`, whatever
their positions before the call, and no other node is changed; every body keeps
its node, its engine body, its position and its rotation; and the bodies other
than `a` and `b` are unchanged. -/
theorem C13_failed_construct_frame [Zero F] [Sub F] [Zero CpF] [One CpF]
    (env : Env F CpF) (s : State F CpF) (a b : Option Nat) (args : Args F)
    (ha : validBody s args.variant a = true) (hb : validBody s args.variant b = true)
    (hab : a ≠ b) (hnew : s.newOutcomes.head? ≠ some false)
    (hnull : ∃ i, i < args.variant.factoryCalls ∧ s.factoryOutcomes.get? i = some false) :
    ∃ s', construct env s a b args = .ok (none, s') ∧
      (args.variant ≠ .fixed → s'.nodes = s.nodes) ∧
      (∀ anchr, args = .fixed anchr →
        (∀ i bd, a = some i ∨ b = some i → s.bodies i = some bd →
          ∃ n, bd._node = some n ∧ s'.nodes n = some { position := anchr }) ∧
        (∀ n, (∀ i bd, a = some i ∨ b = some i → s.bodies i = some bd → bd._node ≠ some n) →
          s'.nodes n = s.nodes n)) ∧
      (∀ i bd, s.bodies i = some bd →
        ∃ bd', s'.bodies i = some bd' ∧ bd'._node = bd._node ∧ bd'._cpBody = bd._cpBody ∧
          bd'.position = bd.position ∧ bd'.rotation = bd.rotation) ∧
      (∀ i, a ≠ some i → b ≠ some i → s'.bodies i = s.bodies i) := by
  obtain ⟨ia, ba, rfl, hba, hna⟩ := validBody_elim s _ _ ha
  obtain ⟨ib, bb, rfl, hbb, hnb⟩ := validBody_elim s _ _ hb
  have hne : ia ≠ ib := fun e => hab (by rw [e])
  obtain ⟨i0, hi0, hget⟩ := hnull
  -- what the two bodies look like afterwards, in both cases
  have hbodies : ∀ s' : State F CpF,
      s'.bodies = Function.update (Function.update s.bodies ia
        (some { ba with _joints := ba._joints ++ [s.nextJoint] })) ib
        (some { bb with _joints := bb._joints ++ [s.nextJoint] }) →
      (∀ i bd, s.bodies i = some bd →
        ∃ bd', s'.bodies i = some bd' ∧ bd'._node = bd._node ∧ bd'._cpBody = bd._cpBody ∧
          bd'.position = bd.position ∧ bd'.rotation = bd.rotation) ∧
      (∀ i, some ia ≠ some i → some ib ≠ some i → s'.bodies i = s.bodies i) := by
    intro s' hs'
    constructor
    · intro i bd hbd
      rw [hs']
      by_cases hib : i = ib
      · subst hib
        rw [hbb] at hbd
        cases hbd
        exact ⟨{ bb with _joints := bb._joints ++ [s.nextJoint] }, by simp, rfl, rfl, rfl, rfl⟩
      · by_cases hia : i = ia
        · subst hia
          rw [hba] at hbd
          cases hbd
          exact ⟨{ ba with _joints := ba._joints ++ [s.nextJoint] },
            by simp [Function.update_noteq hib], rfl, rfl, rfl, rfl⟩
        · exact ⟨bd, by simp [Function.update_noteq hib, Function.update_noteq hia, hbd],
            rfl, rfl, rfl, rfl⟩
    · intro i h1 h2
      have e1 : i ≠ ia := fun e => h1 (by rw [e])
      have e2 : i ≠ ib := fun e => h2 (by rw [e])
      rw [hs']
      simp [Function.update_noteq e1, Function.update_noteq e2]
  by_cases hv : args.variant = .fixed
  · obtain ⟨na, nda, hna1, hna2⟩ := hna hv
    obtain ⟨nb, ndb, hnb1, hnb2⟩ := hnb hv
    cases args with
    | fixed anchr =>
      have hf : s.factoryOutcomes.head? = some false ∨ s.factoryOutcomes.get? 1 = some false := by
        have hi2 : i0 < 2 := by simpa [Args.variant, Variant.factoryCalls] using hi0
        rcases Nat.lt_succ_iff_lt_or_eq.1 hi2 with h0 | h1
        · have : i0 = 0 := by omega
          subst this
          left
          cases hl : s.factoryOutcomes with
          | nil => simp [hl] at hget
          | cons x r => simpa [hl] using hget
        · subst h1
          exact Or.inr hget
      obtain ⟨s', h1, h2, h3⟩ := construct_null_fixed_frame env s ia ib na nb ba bb nda ndb anchr
        hba hbb hne hna1 hnb1 hna2 hnb2 hnew hf
      refine ⟨s', h1, fun h => absurd hv h, ?_, (hbodies s' h3).1, (hbodies s' h3).2⟩
      intro anchr2 hanchr
      cases hanchr
      constructor
      · rintro i bd (hi | hi) hbd
        · cases hi
          rw [hba] at hbd
          cases hbd
          refine ⟨na, hna1, ?_⟩
          rw [h2]
          by_cases e : na = nb
          · subst e
            simp
          · simp [Function.update_noteq e]
        · cases hi
          rw [hbb] at hbd
          cases hbd
          exact ⟨nb, hnb1, by rw [h2]; simp⟩
      · intro n hn
        have e1 : n ≠ na := fun e => hn ia ba (Or.inl rfl) hba (by rw [hna1, e])
        have e2 : n ≠ nb := fun e => hn ib bb (Or.inr rfl) hbb (by rw [hnb1, e])
        rw [h2]
        simp [Function.update_noteq e1, Function.update_noteq e2]
    | _ => simp [Args.variant] at hv
  · have hi1 : i0 = 0 := by
      have : args.variant.factoryCalls = 1 := by
        cases hvv : args.variant <;> simp_all [Variant.factoryCalls]
      omega
    subst hi1
    obtain ⟨rest, hrest⟩ : ∃ rest, s.factoryOutcomes = false :: rest := by
      cases hl : s.factoryOutcomes with
      | nil => simp [hl] at hget
      | cons x r =>
        have : x = false := by simpa [hl] using hget
        exact ⟨r, by rw [this]⟩
    obtain ⟨s', h1, h2, h3⟩ :=
      construct_null_single_frame env s ia ib ba bb args hba hbb hne hv hnew rest hrest
    refine ⟨s', h1, fun _ => h2, ?_, (hbodies s' h3).1, (hbodies s' h3).2⟩
    rintro anchr rfl
    exact absurd rfl hv

/-- C13 (amended), at the scene `demoState` when the pivot factory returns null:
the nodes 10 and 11 of the bodies 0 and 1 end at the anchor (1, 2). -/
theorem C13_failed_construct_frame_witness :
    ∃ s', construct (demoEnv true) { demoState with factoryOutcomes := [false] }
        (some 0) (some 1) (.fixed ⟨1, 2⟩) = .ok (none, s') ∧
      s'.nodes 10 = some { position := ⟨1, 2⟩ } ∧ s'.nodes 11 = some { position := ⟨1, 2⟩ } := by
  obtain ⟨s', h1, -, h3, -, -⟩ := C13_failed_construct_frame (demoEnv true)
    { demoState with factoryOutcomes := [false] } (some 0) (some 1) (.fixed ⟨1, 2⟩)
    (by decide) (by decide) (by decide) (by decide) ⟨0, by decide, by decide⟩
  obtain ⟨q, -⟩ := h3 ⟨1, 2⟩ rfl
  obtain ⟨n0, e0, p0⟩ := q 0
    { _joints := [], _node := some 10, _cpBody := 100, position := ⟨0, 0⟩, rotation := 0 }
    (Or.inl rfl) rfl
  obtain ⟨n1, e1, p1⟩ := q 1
    { _joints := [], _node := some 11, _cpBody := 101, position := ⟨3, 4⟩, rotation := 5 }
    (Or.inr rfl) rfl
  cases e0
  cases e1
  exact ⟨s', h1, p0, p1⟩

end cocos2d
